import Mathlib

/-!
Verification of the Sarthi v8 dialogue-orchestration core.

This file shallowly embeds the parts of the repository that the checked
properties talk about:

* `llm_system/client.py` — response normalization and the failure fallback;
* `app/handlers/initial.py` — the stage engine (`_base_process_and_respond`,
  `process_and_respond`, `update_database_with_system_message`,
  `handle_initial_flow`);
* `app/handlers/distress.py` and `distress_detection/detector.py`;
* `app/handlers/normal_flow.py` — stage 5 (name validation) and the stage 27
  choice branch;
* `app/handlers/global_intent.py` — the venting sanctuary;
* `delivery_service/service.py` — delivery choice processing and dispatch;
* `prompt_engine/template_processor.py` — variable substitution.

External collaborators (the prompt store, the language-model provider, the
vector classifier, channel senders) are passed in as explicit arguments, as
the specification treats them as capabilities.  Python dictionaries are
modelled as association lists with first-key-wins lookup; Python truthiness
is modelled by `JVal.truthy`.
-/

/-- A parsed JSON value, as produced by `json.loads` in the Python source. -/
inductive JVal where
  | null : JVal
  | bool (b : Bool) : JVal
  | num (n : Int) : JVal
  | str (s : String) : JVal
  | arr (xs : List JVal) : JVal
  | obj (fields : List (String × JVal)) : JVal
deriving Repr

namespace JVal

mutual

def beqVal : JVal → JVal → Bool
  | .null, .null => true
  | .bool a, .bool b => a == b
  | .num a, .num b => a == b
  | .str a, .str b => a == b
  | .arr a, .arr b => beqList a b
  | .obj a, .obj b => beqFields a b
  | _, _ => false

def beqList : List JVal → List JVal → Bool
  | [], [] => true
  | a :: as, b :: bs => beqVal a b && beqList as bs
  | _, _ => false

def beqFields : List (String × JVal) → List (String × JVal) → Bool
  | [], [] => true
  | (k, v) :: as, (k', v') :: bs => k == k' && beqVal v v' && beqFields as bs
  | _, _ => false

end

instance : BEq JVal := ⟨beqVal⟩

/-- Python truthiness of a JSON value (`if value:` in the source). -/
def truthy : JVal → Bool
  | .null => false
  | .bool b => b
  | .num n => n != 0
  | .str s => s ≠ ""
  | .arr xs => !xs.isEmpty
  | .obj fields => !fields.isEmpty

end JVal

/-- A Python dict of JSON values: association list, first key wins. -/
abbrev JDict := List (String × JVal)

namespace JDict

/-- `key in d` in Python. -/
def hasKey (d : JDict) (k : String) : Bool :=
  d.any (fun kv => kv.1 == k)

/-- `d.get(key)` in Python (`None` when absent). -/
def get? (d : JDict) (k : String) : Option JVal :=
  (d.find? (fun kv => kv.1 == k)).map (·.2)

/-- `d.get(key, default)` in Python. -/
def getD (d : JDict) (k : String) (v : JVal) : JVal :=
  (d.get? k).getD v

/-- `d[key] = v` in Python: overwrite in place, or append a fresh key. -/
def set : JDict → String → JVal → JDict
  | [], k, v => [(k, v)]
  | kv :: t, k, v => if kv.1 == k then (k, v) :: t else kv :: set t k v

end JDict

mutual

/-- Python `repr` of a parsed JSON value (containers quote their strings). -/
def pyRepr : JVal → String
  | .null => "None"
  | .bool b => if b then "True" else "False"
  | .num n => toString n
  | .str s => "'" ++ s ++ "'"
  | .arr xs => "[" ++ pyReprList xs ++ "]"
  | .obj fields => "\x7b" ++ pyReprFields fields ++ "\x7d"

def pyReprList : List JVal → String
  | [] => ""
  | [x] => pyRepr x
  | x :: xs => pyRepr x ++ ", " ++ pyReprList xs

def pyReprFields : List (String × JVal) → String
  | [] => ""
  | [(k, v)] => "'" ++ k ++ "': " ++ pyRepr v
  | (k, v) :: kvs => "'" ++ k ++ "': " ++ pyRepr v ++ ", " ++ pyReprFields kvs

end

/-- Python `str` of a parsed JSON value (`str(...)` in the source). -/
def pyStr : JVal → String
  | .str s => s
  | v => pyRepr v

/-- Python's `str.strip` whitespace class (ASCII). -/
def pySpace (c : Char) : Bool :=
  c == ' ' || c == '\t' || c == '\n' || c == '\r' || c == '\x0b' || c == '\x0c'

/-- Python `str.strip()`. -/
def pyStrip (s : String) : String :=
  String.mk (((s.toList.dropWhile pySpace).reverse.dropWhile pySpace).reverse)

/-- Python `str.lower()` (ASCII). -/
def pyLower (s : String) : String :=
  String.mk (s.toList.map Char.toLower)

namespace LLMClient

/-- `LLMClient._extract_user_message` (`llm_system/client.py:155-164`):
walk the priority list of message keys, first present truthy value wins,
else fall back to the fixed empathetic line. -/
def extract_user_message (raw : JDict) : String :=
  go ["reflection", "message", "response", "user_message", "reply", "output"] raw
where
  go : List String → JDict → String
  | [], _ => "I hear what you're sharing with me."
  | f :: fs, raw =>
    match raw.get? f with
    | some v => if v.truthy then pyStr v else go fs raw
    | none => go fs raw

/-- `LLMClient._extract_system_data` (`llm_system/client.py:110-153`). -/
def extract_system_data (raw : JDict) : JDict :=
  let sd : JDict := []
  let sd := match raw.get? "decision" with
    | some v => sd.set "decision" v
    | none => sd
  let sd := match raw.get? "send_to_user" with
    | some v => sd.set "send_to_user" v
    | none => sd
  let sd := ["recipient_name", "relationship", "emotions", "intent"].foldl
    (fun sd key => match raw.get? key with
      | some v => sd.set key v
      | none => sd) sd
  -- Handle both isValidName and isValid formats
  let sd :=
    match raw.get? "isValidName" with
    | some v =>
      let sd := sd.set "is_valid_name" (.str (if v.truthy then "yes" else "no"))
      let sd := match raw.get? "name" with
        | some n => sd.set "name" n
        | none => sd
      match raw.get? "names" with
      | some ns => sd.set "names" ns
      | none => sd
    | none =>
      match raw.get? "isValid" with
      | some v =>
        let sd := sd.set "is_valid_name" (.str (if v.truthy then "yes" else "no"))
        let sd := match raw.get? "name" with
          | some n => sd.set "name" n
          | none => sd
        match raw.get? "names" with
        | some ns => sd.set "names" ns
        | none => sd
      | none =>
        match raw.get? "is_valid_name" with
        | some v => sd.set "is_valid_name" v
        | none => sd
  let system_fields := ["intent", "confidence", "analysis", "validation", "classification",
    "extracted_data", "metadata", "assessment", "recommendation", "proceed",
    "choice", "confirmation", "user_wants_delivery", "decision", "send_to_user",
    "name", "extracted_name", "recipient_name", "relationship", "emotions", "names"]
  system_fields.foldl
    (fun sd field =>
      match raw.get? field with
      | some v => if sd.hasKey field then sd else sd.set field v
      | none => sd) sd

/-- `LLMClient._normalize_response` (`llm_system/client.py:84-108`). -/
def normalize_response (raw : JDict) (reflection_id : JVal) : JDict :=
  if raw.hasKey "system_response" && raw.hasKey "user_response" then
    raw.set "reflection_id" reflection_id
  else
    [("reflection_id", reflection_id),
     ("system_response", .obj (extract_system_data raw)),
     ("user_response", .obj [("message", .str (extract_user_message raw))])]

/-- `LLMClient._mock_llm_failure_response` (`llm_system/client.py:166-179`):
the degraded canonical result returned when the provider call fails. -/
def mock_llm_failure_response (reflection_id : JVal) (model : String) : JDict :=
  [("reflection_id", reflection_id),
   ("system_response", .obj
     [("intent", .str "NO_OVERRIDE"),
      ("error", .str "LLM_API_FAILURE"),
      ("engine", .str model)]),
   ("user_response", .obj
     [("message", .str "I'm sorry, I seem to be having technical difficulties. Please try again in a moment.")])]

/-- `LLMClient.process_json_request` (`llm_system/client.py:37-82`): the
provider outcome is `some raw` for a successful call returning parsed JSON,
`none` for any failure (transport error, invalid JSON, empty response); a
failure yields the degraded fallback instead of raising. -/
def process_json_request (outcome : Option JDict) (reflection_id : JVal)
    (model : String) : JDict :=
  match outcome with
  | some raw => normalize_response raw reflection_id
  | none => mock_llm_failure_response reflection_id model

end LLMClient

/-! ## Persistent data model (`app/models.py`, plus the dynamic attributes the
delivery service sets on `Reflection` instances) -/

/-- One row of the `reflections` table, together with the dynamic attributes
(`is_anonymous`, `sender_name`, `delivery_mode`) that
`delivery_service/service.py` sets on the instance.  String columns written
from classifier payloads hold the raw JSON value the handler assigned. -/
structure Reflection where
  flow_type : Option JVal := none
  current_stage : Int := 0
  emotion : Option JVal := none
  receiver_name : Option JVal := none
  receiver_relationship : Option JVal := none
  summary : Option String := none
  receiver_user_id : Option String := none
  is_delivered : Int := 0
  is_anonymous : Option Bool := none
  sender_name : Option String := none
  delivery_mode : Option JVal := none
deriving Repr

/-- One row of the `messages` table.  `created_at` is seconds since an
arbitrary epoch; rows are appended in creation order. -/
structure Msg where
  sender : Int
  message : String
  current_stage : Option Int
  is_distress : Bool := false
  created_at : Int
deriving Repr

/-- The slice of the database one turn reads and writes: the reflection the
request names and its messages (append-only, in creation order). -/
structure SessionState where
  reflection : Reflection
  messages : List Msg
deriving Repr

/-- `app/schemas.py` `MessageResponse`. -/
structure MessageResponse where
  success : Bool
  reflection_id : Option String := none
  sarthi_message : Option String := none
  current_stage : Option Int := none
  next_stage : Option Int := none
  data : List JDict := []
deriving Repr

namespace DbHandler

/-- `app/handlers/database.py` `save_message`: append one message row.
(`stage_no` is never `None` at the call sites modelled here.) -/
def save_message (st : SessionState) (message : String) (sender : Int)
    (stage_no : Int) (now : Int) (is_distress : Bool := false) : SessionState :=
  { st with messages :=
      st.messages ++ [{ sender := sender, message := message,
                        current_stage := some stage_no,
                        is_distress := is_distress, created_at := now }] }

/-- `app/handlers/database.py` `update_reflection_stage`. -/
def update_reflection_stage (st : SessionState) (next_stage : Int) : SessionState :=
  { st with reflection := { st.reflection with current_stage := next_stage } }

/-- `app/handlers/database.py` `update_reflection_status` (writes `is_delivered`). -/
def update_reflection_status (st : SessionState) (status : Int) : SessionState :=
  { st with reflection := { st.reflection with is_delivered := status } }

/-- `app/handlers/database.py` `update_reflection_flow_type`. -/
def update_reflection_flow_type (st : SessionState) (ft : Option JVal) : SessionState :=
  { st with reflection := { st.reflection with flow_type := ft } }

/-- `app/handlers/database.py` `update_reflection_recipient`. -/
def update_reflection_recipient (st : SessionState) (name : JVal) : SessionState :=
  { st with reflection := { st.reflection with receiver_name := some name } }

/-- `app/handlers/database.py` `get_last_user_message`: latest message with
`sender == 0`.  Rows are kept in creation order, so this is the last user
message of the list. -/
def get_last_user_message (st : SessionState) : Option Msg :=
  (st.messages.filter (fun m => m.sender == 0)).getLast?

end DbHandler

/-! ## Stage engine (`app/handlers/initial.py`) -/

/-- The stage configuration returned by the prompt store for one stage
(`prompt_engine_service.process_dict_request`): the resolved template, its
audience (`prompt_type`: 0 = user, 1 = model), whether it is static, and the
declared next stage (`None` = the engine decides dynamically). -/
structure StageCfg where
  prompt : String
  next_stage : Option Int
  is_static : Bool
  prompt_type : Int
deriving Repr, DecidableEq

namespace StageEngine

/-- `update_database_with_system_message` (`app/handlers/initial.py:35-58`):
apply every recognized (truthy) system field to the reflection.  Note the
`intent → flow_type` write has no stage condition in the source. -/
def update_database_with_system_message (system_response : JDict)
    (r : Reflection) : Reflection :=
  let r := match system_response.get? "recipient_name" with
    | some v => if v.truthy then { r with receiver_name := some v } else r
    | none => r
  let r := match system_response.get? "relationship" with
    | some v => if v.truthy then { r with receiver_relationship := some v } else r
    | none => r
  let r := match system_response.get? "emotions" with
    | some v => if v.truthy then { r with emotion := some v } else r
    | none => r
  match system_response.get? "intent" with
  | some v => if v.truthy then { r with flow_type := some v } else r
  | none => r

/-- `_base_process_and_respond` (`app/handlers/initial.py:64-190`).

Collaborator inputs: `cfg` is the stage configuration from the prompt store,
`dynPrompt` the template re-resolved with `find_data` values (used when
`is_static` is false), `llmOutcome` the provider outcome for the turn's
model call (see `LLMClient.process_json_request`), `model` the configured
model name, `rid` the reflection id, `reqMsg` the request message
(`request.message`), `now` the current time.

Returns the updated state, the outgoing message and the system payload. -/
def base_process_and_respond (cfg : StageCfg) (dynPrompt : String)
    (llmOutcome : Option JDict) (model : String) (rid : String)
    (st : SessionState) (current_stage : Int) (reqMsg : Option String)
    (now : Int) : SessionState × String × JDict :=
  -- Step 2: process based on prompt_type / is_static
  let (st, final_sarthi_message, system_response) :=
    if cfg.prompt_type == 0 then
      -- USER PROMPT: static uses the template as-is, dynamic re-resolves it
      (st, (if cfg.is_static then cfg.prompt else dynPrompt), ([] : JDict))
    else
      -- SYSTEM PROMPT: call the LLM client and read the canonical result
      let llm_response := LLMClient.process_json_request llmOutcome (.str rid) model
      let user_response := llm_response.getD "user_response" (.obj [])
      let system_response :=
        match llm_response.getD "system_response" (.obj []) with
        | .obj fields => fields
        | _ => []
      let final_sarthi_message :=
        match user_response with
        | .obj ufields =>
          if user_response.truthy && (JDict.getD ufields "message" JVal.null).truthy then
            let t := pyStrip (pyStr (JDict.getD ufields "message" JVal.null))
            if t ≠ "" then t else "I'm processing your message."
          else "Thank you for sharing that with me."
        | _ => "Thank you for sharing that with me."
      let st :=
        if !system_response.isEmpty then
          { st with reflection := update_database_with_system_message system_response st.reflection }
        else st
      (st, final_sarthi_message, system_response)
  -- Step 3: save the user message when present
  let st := match reqMsg with
    | some m => if m ≠ "" then DbHandler.save_message st m 0 current_stage now else st
    | none => st
  -- Step 4: advance only when next_stage is not null
  let st := match cfg.next_stage with
    | some n =>
      DbHandler.save_message (DbHandler.update_reflection_stage st n)
        final_sarthi_message 1 n now
    | none => DbHandler.save_message st final_sarthi_message 1 current_stage now
  (st, final_sarthi_message, system_response)

/-- `process_and_respond` (`app/handlers/initial.py:192-221`).  The
`LLMProcessingError` branch is unreachable through
`LLMClient.process_json_request`, whose output is always well-formed JSON;
this embedding therefore models the non-raising path. -/
def process_and_respond (cfg : StageCfg) (dynPrompt : String)
    (llmOutcome : Option JDict) (model : String) (rid : String)
    (st : SessionState) (current_stage : Int) (reqMsg : Option String)
    (now : Int) : SessionState × MessageResponse :=
  let (st', msg, _) :=
    base_process_and_respond cfg dynPrompt llmOutcome model rid st current_stage reqMsg now
  (st',
   { success := true, reflection_id := some rid, sarthi_message := some msg,
     current_stage := some current_stage,
     next_stage := some st'.reflection.current_stage })

end StageEngine

/-! ## Distress detection (`distress_detection/detector.py`,
`app/handlers/distress.py`) -/

/-- Substring containment (Python `needle in haystack` on strings). -/
def containsSub (needle : List Char) : List Char → Bool
  | [] => needle.isEmpty
  | c :: t => needle.isPrefixOf (c :: t) || containsSub needle t

namespace DistressDetector

/-- `DistressDetector.check` (`distress_detection/detector.py:40-86`).

`vectorResult` is the top Pinecone match as `(confidence, category)`; `none`
stands for no match, an empty result or a failed vector search (all of which
return severity 0 in the source).  Confidence and thresholds are the
classifier's scores, modelled as rationals.  Returns 0 = none, 1 = critical,
2 = warning. -/
def check (block_list : List String) (message : String)
    (vectorResult : Option (ℚ × String)) (red_threshold yellow_threshold : ℚ) :
    Int :=
  if pyStrip message = "" then 0
  else
    let message_lower := pyLower message
    if block_list.any (fun p => containsSub p.toList message_lower.toList) then 1
    else
      match vectorResult with
      | none => 0
      | some (confidence, category) =>
        if category = "red" && confidence ≥ red_threshold then 1
        else if category = "yellow" && confidence ≥ yellow_threshold then 2
        else 0

end DistressDetector

namespace DistressHandler

/-- The fixed crisis-resource message of `app/handlers/distress.py:19`. -/
def crisisMessage : String :=
  "For immediate support, please reach out to a crisis hotline."

/-- `handle_distress_check` (`app/handlers/distress.py:12-38`).

`level` is the severity returned by `distress_service.check`.  For the
warning path (`level == 2`), `prompt22`/`prompt23` are the stage-22/23
templates from the prompt store and `llmOutcome` the provider outcome of the
secondary intensity assessment.  Returns `none` when ordinary processing
should continue. -/
def handle_distress_check (level : Int) (st : SessionState) (reqMsg : String)
    (rid : String) (model : String) (now : Int)
    (llmOutcome : Option JDict) (prompt23 : String) :
    Option (SessionState × MessageResponse) :=
  if level == 1 then
    let st := DbHandler.update_reflection_status st 2
    let st := DbHandler.save_message st reqMsg 0 (-1) now true
    some (st,
      { success := false, reflection_id := some rid,
        sarthi_message := some crisisMessage,
        data := [[("distress_level", .str "critical")]] })
  else if level == 2 then
    -- chat_completion wraps process_json_request with no reflection id
    let llm_response := LLMClient.process_json_request llmOutcome JVal.null model
    let intensity := llm_response.getD "intensity" (.str "neutral")
    if intensity == JVal.str "high" || intensity == JVal.str "elevated" then
      some (st,
        { success := true, reflection_id := some rid,
          sarthi_message := some prompt23 })
    else none
  else none

/-- The distress step of `MessageOrchestrator.process_message`
(`app/orchestration.py:43-45`): the distress check runs before any stage
processing and short-circuits the rest of the pipeline (`rest`) on a hit. -/
def orchestrate (level : Int) (st : SessionState) (reqMsg : String)
    (rid : String) (model : String) (now : Int)
    (llmOutcome : Option JDict) (prompt23 : String)
    (rest : SessionState → SessionState × MessageResponse) :
    SessionState × MessageResponse :=
  match handle_distress_check level st reqMsg rid model now llmOutcome prompt23 with
  | some r => r
  | none => rest st

end DistressHandler

/-! ## Venting sanctuary (`app/handlers/global_intent.py:16-179`) -/

namespace VentingSanctuary

/-- The shared tail of `handle_venting_sanctuary`
(`app/handlers/global_intent.py:153-179`): save the model's reply and return
the inactivity or venting-continues response — except that a reply that is a
Python list (it survived the log-line slice) makes `save_message`'s `commit`
raise, aborting the turn with nothing persisted (`none`). -/
def venting_normal_flow (st : SessionState) (rid : String)
    (sarthi_response_msg : String) (message_is_list is_inactive : Bool)
    (now : Int) : SessionState × Option MessageResponse :=
  if message_is_list then (st, none)
  else
    let st := DbHandler.save_message st sarthi_response_msg 1 24 now
    if is_inactive then
      (st, some
        { success := true, reflection_id := some rid,
          sarthi_message := some "I'm still here when you're ready to continue sharing.",
          current_stage := some 24, next_stage := some 24,
          data := [[("inactivity_detected", .bool true)]] })
    else
      (st, some
        { success := true, reflection_id := some rid,
          sarthi_message := some sarthi_response_msg,
          current_stage := some 24, next_stage := some 24,
          data := [[("venting_continues", .bool true)]] })

/-- `handle_venting_sanctuary` (`app/handlers/global_intent.py:16-179`).

`llmOutcome` is the provider outcome of the sanctuary's own model call;
`cfg2`, `dynPrompt2`, `llmOutcome2` serve the stage-2 processing reached
through `handle_normal_flow` when a non-venting intent is detected (normal
flow dispatches stage 2 straight to `process_and_respond`).

The try block of lines 52-73 resets `system_response` to the empty dict when
extracting the user message raises inside it: `user_response` not a dict, or
its `message` value unsliceable in the log line — anything but a string or a
list.  A Python list survives that slice and only blows up later, when
`save_message` hands it to the database as the message column (`commit`
raises and persists nothing).  A truthy non-dict `system_response`
(reachable through the normalizer's pass-through shape) raises an uncaught
`AttributeError` inside `update_database_with_system_message` (line 80),
before any field write.  Either uncaught exception aborts the turn: the
second component is `none`, which the orchestrator's envelope
(`orchestrate_venting` below) turns into the fixed generic failure. -/
def handle_venting_sanctuary (st : SessionState) (reqMsg : String)
    (rid : String) (model : String) (llmOutcome : Option JDict) (now : Int)
    (cfg2 : StageCfg) (dynPrompt2 : String) (llmOutcome2 : Option JDict) :
    SessionState × Option MessageResponse :=
  let current_stage : Int := 24
  -- Save user message first
  let st := DbHandler.save_message st reqMsg 0 current_stage now
  -- Check for inactivity
  let is_inactive : Bool :=
    match DbHandler.get_last_user_message st with
    | some m => decide ((now - m.created_at) > 3 * 60)
    | none => false
  -- Call the LLM service for both user_response and system_response
  let llm_response := LLMClient.process_json_request llmOutcome (.str rid) model
  let user_response := JDict.getD llm_response "user_response" (.obj [])
  -- (sarthi_response_msg, message-is-a-list, system_response) after the try
  let tryRes : String × Bool × JVal :=
    match user_response with
    | .obj ufields =>
      match JDict.getD ufields "message" (.str "I'm listening.") with
      | .str s => (s, false, JDict.getD llm_response "system_response" (.obj []))
      | .arr _ => ("", true, JDict.getD llm_response "system_response" (.obj []))
      | _ => ("I'm listening. Please continue.", false, .obj [])
    | _ => ("I'm listening. Please continue.", false, .obj [])
  let sarthi_response_msg := tryRes.1
  let message_is_list := tryRes.2.1
  let system_response := tryRes.2.2
  -- Process system_response and check for an intent transition
  if system_response.truthy then
    match system_response with
    | .obj fields =>
      let st := { st with reflection :=
        StageEngine.update_database_with_system_message fields st.reflection }
      let intentTransition :=
        match JDict.get? fields "intent" with
        | some (.str s) => pyStrip s ≠ "" && pyLower (pyStrip s) ≠ "venting"
        | _ => false
      if intentTransition then
        -- Move to stage 2 (AWAITING_EMOTION) and let normal flow process it
        let st := DbHandler.update_reflection_stage st 2
        let r := StageEngine.process_and_respond cfg2 dynPrompt2 llmOutcome2 model
          rid st 2 (some reqMsg) now
        (r.1, some r.2)
      else venting_normal_flow st rid sarthi_response_msg message_is_list
        is_inactive now
    | _ => (st, none)
  else venting_normal_flow st rid sarthi_response_msg message_is_list
    is_inactive now

/-- The orchestrator's exception envelope around a venting turn
(`app/orchestration.py:60-62`): an exception escaping the handler is caught
and turned into the fixed generic failure response; `errData` stands for the
exception-specific `\x7b"error": str(e)\x7d` payload. -/
def orchestrate_venting (errData : List JDict)
    (r : SessionState × Option MessageResponse) : MessageResponse :=
  match r.2 with
  | some resp => resp
  | none => { success := false,
              sarthi_message := some "An unexpected error occurred.",
              data := errData }

end VentingSanctuary

/-! ## Stage 5 — name validation (`app/handlers/normal_flow.py:13-27,176-247`) -/

namespace NormalFlow

/-- `_get_first_playbook_stage` (`app/handlers/normal_flow.py:13-27`). -/
def get_first_playbook_stage (flow_type : Option JVal) : Int :=
  if flow_type == some (.str "feedback_sbi") then 6
  else if flow_type == some (.str "feedback") then 6
  else if flow_type == some (.str "apology_4a") then 9
  else if flow_type == some (.str "apology") then 9
  else if flow_type == some (.str "gratitude_aif") then 13
  else if flow_type == some (.str "gratitude") then 13
  else 6

/-- Python `value[0]`: defined for nonempty lists and strings; `none` models
a `TypeError`/`KeyError` (caught by the stage-5 `except` in the source). -/
def pyIndex0 : JVal → Option JVal
  | .arr (x :: _) => some x
  | .str s => if s = "" then none else some (.str (String.mk [s.data.head!]))
  | _ => none

/-- The stage-5 error fallback (`app/handlers/normal_flow.py:236-247`):
save an apologetic re-prompt and stay at stage 5 (note `success=True`). -/
def stage5_error_response (st : SessionState) (rid : String) (now : Int) :
    SessionState × MessageResponse :=
  let error_message := "I'm having some difficulty processing that. Could you please tell me the name again?"
  let st := DbHandler.save_message st error_message 1 5 now
  (st, { success := true, reflection_id := some rid,
         sarthi_message := some error_message,
         current_stage := some 5, next_stage := some 5 })

/-- Stage 5, NAME_VALIDATION (`app/handlers/normal_flow.py:176-247`).

`llmOutcome` is the provider outcome of the stage-5 validation call;
`cfgNext`, `dynPromptNext`, `llmOutcomeNext` serve the follow-on
`process_and_respond` at the playbook's first stage.  Note: the source
computes `is_valid` from the key `"validNames"` (which the normalizer never
produces — it emits `"is_valid_name"`) and then never reads it. -/
def handle_stage5 (st : SessionState) (reqMsg : String) (rid : String)
    (model : String) (llmOutcome : Option JDict) (now : Int)
    (cfgNext : StageCfg) (dynPromptNext : String) (llmOutcomeNext : Option JDict) :
    SessionState × MessageResponse :=
  let current_stage : Int := 5
  let st := DbHandler.save_message st reqMsg 0 current_stage now
  let llm_response := LLMClient.process_json_request llmOutcome (.str rid) model
  let system_msg :=
    match llm_response.getD "system_response" (.obj []) with
    | .obj fields => fields
    | _ => []
  let _is_valid := JDict.get? system_msg "validNames" == some (JVal.str "yes")
  -- name extraction: names[0], else name, else the raw user message
  let validated_name? : Option JVal :=
    match JDict.get? system_msg "names" with
    | some ns =>
      if ns.truthy then pyIndex0 ns
      else fallbackName system_msg reqMsg
    | none => fallbackName system_msg reqMsg
  match validated_name? with
  | none => stage5_error_response st rid now  -- indexing raised; except branch
  | some validated_name =>
    let st := if validated_name.truthy then
        DbHandler.update_reflection_recipient st validated_name
      else st
    let next_playbook_stage := get_first_playbook_stage st.reflection.flow_type
    let st := DbHandler.update_reflection_stage st next_playbook_stage
    StageEngine.process_and_respond cfgNext dynPromptNext llmOutcomeNext model rid
      st next_playbook_stage (some reqMsg) now
where
  /-- the `elif "name" ... else request.message` arms of the extraction -/
  fallbackName (system_msg : JDict) (reqMsg : String) : Option JVal :=
    match JDict.get? system_msg "name" with
    | some n => if n.truthy then some n else some (.str reqMsg)
    | none => some (.str reqMsg)

end NormalFlow

/-! ## Session start (`app/handlers/initial.py:224-244`) -/

namespace InitialFlow

/-- One chat's reflections, each with its messages, in creation order
(`get_latest_reflection_by_chat_id` returns the last). -/
abbrev ChatState := List SessionState

/-- `handle_create_new_reflection` (`app/handlers/initial.py:242-244`):
insert a fresh reflection (stage 0, `is_delivered = 0`) and process stage 0
with no request. -/
def handle_create_new_reflection (cs : ChatState) (cfg0 : StageCfg)
    (dynPrompt0 : String) (llmOutcome0 : Option JDict) (model rid : String)
    (now : Int) : ChatState × MessageResponse :=
  let fresh : SessionState := { reflection := {}, messages := [] }
  let (st', resp) :=
    StageEngine.process_and_respond cfg0 dynPrompt0 llmOutcome0 model rid fresh 0
      none now
  (cs ++ [st'], resp)

/-- `handle_initial_flow` / `handle_incomplete_reflection`
(`app/handlers/initial.py:224-240`).  `reqData` is `request.data`; the
`cfgR`-family parameters serve `process_and_respond` at the resumed stage
when the caller answers "1". -/
def handle_initial_flow (cs : ChatState) (reqData : List JDict)
    (reqMsg : Option String)
    (cfg0 : StageCfg) (dynPrompt0 : String) (llmOutcome0 : Option JDict)
    (cfgR : StageCfg) (dynPromptR : String) (llmOutcomeR : Option JDict)
    (model rid : String) (now : Int) : ChatState × MessageResponse :=
  match cs.getLast? with
  | none => handle_create_new_reflection cs cfg0 dynPrompt0 llmOutcome0 model rid now
  | some latest =>
    if latest.reflection.is_delivered == 1 || latest.reflection.is_delivered == 2 then
      handle_create_new_reflection cs cfg0 dynPrompt0 llmOutcome0 model rid now
    else
      -- handle_incomplete_reflection: offered only for other reflections
      let user_choice := reqData.head?.bind (fun d => d.get? "choice")
      if user_choice == some (JVal.str "1") then
        let (st', resp) :=
          StageEngine.process_and_respond cfgR dynPromptR llmOutcomeR model rid
            latest latest.reflection.current_stage reqMsg now
        (cs.dropLast ++ [st'], resp)
      else if user_choice == some (JVal.str "0") then
        handle_create_new_reflection cs cfg0 dynPrompt0 llmOutcome0 model rid now
      else
        (cs, { success := true, reflection_id := some rid,
               sarthi_message := some "Welcome back! Continue?",
               data := [[("choice", .str "1"), ("label", .str "Yes")],
                        [("choice", .str "0"), ("label", .str "No")]] })

end InitialFlow

/-! ## Delivery service (`delivery_service/service.py`) and the stage-27
choice branch (`app/handlers/normal_flow.py:282-388`) -/

namespace DeliveryService

/-- The dict a delivery-service method returns to the stage-27 handler. -/
structure DeliveryResult where
  success : Bool := true
  reflection_id : String
  sarthi_message : String
  current_stage : Int := 100
  next_stage : Int := 100
  data : List JDict := []
deriving Repr

/-- `DeliveryService._get_reflection_summary` (`delivery_service/service.py:620-624`). -/
def get_reflection_summary (r : Reflection) : Option String :=
  match r.summary with
  | some s => if s ≠ "" && pyStrip s ≠ "" then some s else none
  | none => none

/-- `DeliveryService._show_delivery_options` (`delivery_service/service.py:101-178`),
with the option catalogue reproduced as data. -/
def show_delivery_options (rid : String) (r : Reflection) (summary : Option JVal) :
    DeliveryResult :=
  { reflection_id := rid,
    sarthi_message := "Perfect! How would you like to deliver your message? Please provide the recipient's contact details.",
    data := [[("summary", summary.getD .null),
              ("delivery_options", .arr
                [.obj [("mode", .num 0), ("name", .str "Email")],
                 .obj [("mode", .num 1), ("name", .str "WhatsApp")],
                 .obj [("mode", .num 2), ("name", .str "Both")],
                 .obj [("mode", .num 3), ("name", .str "Private")]]),
              ("identity_status", .obj
                [("is_anonymous", match r.is_anonymous with
                    | some b => .bool b
                    | none => .null),
                 ("sender_name", match r.sender_name with
                    | some s => .str s
                    | none => .null)])]] }

/-- `DeliveryService.process_identity_choice` (`delivery_service/service.py:180-231`).
`reveal_choice` is the raw value of the caller's `reveal_name` field (the
source tests it with `is False` / `is True`, so only genuine booleans take a
branch); `none` models the fall-through `return None`, which the stage-27
handler turns into its generic failure. -/
def process_identity_choice (r : Reflection) (rid : String)
    (reveal_choice : JVal) (provided_name : JVal) (userName : Option String) :
    Option (Reflection × DeliveryResult) :=
  let summary := (get_reflection_summary r).map JVal.str
  match reveal_choice with
  | .bool false =>
    let r := { r with is_anonymous := some true, sender_name := none }
    some (r, show_delivery_options rid r summary)
  | .bool true =>
    if provided_name.truthy then
      match provided_name with
      | .str s =>
        let r := { r with is_anonymous := some false, sender_name := some (pyStrip s) }
        some (r, show_delivery_options rid r summary)
      | _ => none  -- `.strip()` on a non-string raises; caught by the handler
    else
      some (r,
        { reflection_id := rid,
          sarthi_message := "Please enter your name to include it in your reflection.",
          data := [[("summary", summary.getD .null),
                    ("input", .obj
                      [("name", .str "name"),
                       ("placeholder", .str "Enter your name"),
                       ("default_value", .str (userName.getD ""))])]] })
  | _ => none

/-- `DeliveryService._handle_private_mode` (`delivery_service/service.py:432-451`). -/
def handle_private_mode (r : Reflection) (rid : String) :
    Reflection × Except String DeliveryResult :=
  let r := { r with is_delivered := 1 }
  (r, .ok
    { reflection_id := rid,
      sarthi_message := "Your message has been saved privately. No delivery was made. 🔒 Now, how are you feeling after completing this reflection?",
      data := [[("summary", ((get_reflection_summary r).map JVal.str).getD .null),
                ("status", .arr [.str "private"]),
                ("delivery_complete", .bool true),
                ("feedback_required", .bool true)]] })

/-- `DeliveryService._deliver_via_email` (`delivery_service/service.py:453-490`):
links the recipient user to the reflection (a committed write) before the
send; a failed send then raises.  `sendOk` is the channel sender's outcome. -/
def deliver_via_email (r : Reflection) (recipient_email : String) (sendOk : Bool) :
    Reflection × Bool :=
  let r := { r with receiver_user_id := some recipient_email }
  (r, sendOk)

/-- `DeliveryService._deliver_via_whatsapp` (`delivery_service/service.py:492-531`). -/
def deliver_via_whatsapp (r : Reflection) (recipient_phone : String) (sendOk : Bool) :
    Reflection × Bool :=
  let r := { r with receiver_user_id := some recipient_phone }
  (r, sendOk)

/-- Python numeric equality `v == n` for membership tests like
`delivery_mode in [0, 2]` (booleans compare equal to 0/1 in Python). -/
def pyEqNum (v : JVal) (n : Int) : Bool :=
  match v with
  | .num m => m == n
  | .bool b => (if b then (1 : Int) else 0) == n
  | _ => false

/-- `DeliveryService._execute_delivery_with_contact`
(`delivery_service/service.py:343-430`).  `emailOk` / `whatsOk` are the two
channel senders' outcomes.  `Except.error` models a raised `HTTPException`
(its detail string); committed writes made before the raise are kept in the
returned reflection. -/
def execute_delivery_with_contact (r : Reflection) (rid : String)
    (recipient_email recipient_phone : JVal) (emailOk whatsOk : Bool) :
    Reflection × Except String DeliveryResult :=
  let delivery_mode := match r.delivery_mode with
    | some v => if v.truthy then v else .num 0   -- `reflection.delivery_mode or 0`
    | none => .num 0
  if pyEqNum delivery_mode 3 then handle_private_mode r rid
  else
    if pyEqNum delivery_mode 0 then
      if !recipient_email.truthy then
        (r, .error "Email delivery requires recipient email")
      else
        let (r, ok) := deliver_via_email r (pyStr recipient_email) emailOk
        if !ok then (r, .error "Email sending failed")
        else
          finish r rid ["email_sent"]
            ("Your message has been sent via email to " ++ pyStr recipient_email ++ " successfully! 📧")
    else if pyEqNum delivery_mode 1 then
      if !recipient_phone.truthy then
        (r, .error "WhatsApp delivery requires recipient phone")
      else
        let (r, ok) := deliver_via_whatsapp r (pyStr recipient_phone) whatsOk
        if !ok then (r, .error "WhatsApp delivery failed")
        else
          finish r rid ["whatsapp_sent"]
            ("Your message has been sent via WhatsApp to " ++ pyStr recipient_phone ++ " successfully! 📱")
    else if pyEqNum delivery_mode 2 then
      -- Both: attempt each channel independently; a failure is logged and
      -- skipped, it does not abort the other channel
      let (r, emailSent) :=
        if recipient_email.truthy then
          let (r, ok) := deliver_via_email r (pyStr recipient_email) emailOk
          (r, ok)
        else (r, false)
      let (r, whatsSent) :=
        if recipient_phone.truthy then
          let (r, ok) := deliver_via_whatsapp r (pyStr recipient_phone) whatsOk
          (r, ok)
        else (r, false)
      let delivery_status :=
        (if emailSent then ["email_sent"] else []) ++
        (if whatsSent then ["whatsapp_sent"] else [])
      let sent_methods :=
        (if emailSent then ["email"] else []) ++
        (if whatsSent then ["WhatsApp"] else [])
      if sent_methods.isEmpty then
        (r, .error "All delivery methods failed")
      else
        finish r rid delivery_status
          ("Your message has been sent via " ++ String.intercalate " and " sent_methods ++ " successfully! 📧📱")
    else
      -- no branch assigns `message`: the source would raise a NameError here
      (r, .error "NameError: message")
where
  /-- the shared tail: mark delivered and build the success payload -/
  finish (r : Reflection) (rid : String) (delivery_status : List String)
      (message : String) : Reflection × Except String DeliveryResult :=
    let r := { r with is_delivered := 1 }
    (r, .ok
      { reflection_id := rid,
        sarthi_message := message ++ " Now, how are you feeling after completing this reflection?",
        data := [[("summary", ((get_reflection_summary r).map JVal.str).getD .null),
                  ("delivery_status", .arr (delivery_status.map JVal.str)),
                  ("delivery_complete", .bool true),
                  ("feedback_required", .bool true)]] })

/-- `DeliveryService.process_delivery_choice`
(`delivery_service/service.py:233-265`).  Note the order in the source: the
delivery mode is stored and committed *before* dispatch is attempted. -/
def process_delivery_choice (r : Reflection) (rid : String)
    (delivery_mode : JVal) (recipient_email recipient_phone : JVal)
    (emailOk whatsOk : Bool) : Reflection × Except String DeliveryResult :=
  if !([0, 1, 2, 3].any (fun n => pyEqNum delivery_mode n)) then
    (r, .error "Invalid delivery mode")
  else
    let r := { r with delivery_mode := some delivery_mode }
    execute_delivery_with_contact r rid recipient_email recipient_phone emailOk whatsOk

/-- Python-style email validation, `DeliveryService._is_valid_email`
(`delivery_service/service.py:637-648`): the regex
`^[a-zA-Z0-9._%+-]+@[a-zA-Z0-9.-]+\.[a-zA-Z]\x7b2,\x7d$` matches exactly the
strings with one `@`, a nonempty local part over its class, and a domain
whose final dot is followed by at least two letters. -/
def is_valid_email (email : JVal) : Bool :=
  if !email.truthy then false
  else
    let s := pyStrip (pyStr email)
    if s = "" then false
    else
      let cs := s.toList
      let isAlpha := fun c => ('a' ≤ c && c ≤ 'z') || ('A' ≤ c && c ≤ 'Z')
      let isDigit := fun c => '0' ≤ c && c ≤ '9'
      let localChar := fun c => isAlpha c || isDigit c || c == '.' || c == '_'
        || c == '%' || c == '+' || c == '-'
      let domainChar := fun c => isAlpha c || isDigit c || c == '.' || c == '-'
      match cs.splitOn '@' with
      | [localPart, domain] =>
        !localPart.isEmpty && localPart.all localChar &&
        (match (domain.reverse.splitOn '.').head? with
         | some revTld =>
           let tld := revTld.reverse
           decide (tld.length ≥ 2) && tld.all isAlpha &&
           domain.length > tld.length + 1 - 1 &&   -- a dot and a nonempty prefix exist
           (domain.take (domain.length - tld.length - 1)).all domainChar &&
           !(domain.take (domain.length - tld.length - 1)).isEmpty &&
           domain.getLast? ≠ some '.' &&
           (domain.drop (domain.length - tld.length - 1)).head? = some '.'
         | none => false)
      | _ => false

/-- `DeliveryService.process_third_party_email`
(`delivery_service/service.py:267-324`).  `sendOk` is the email sender's
outcome. -/
def process_third_party_email (r : Reflection) (rid : String)
    (third_party_email : JVal) (sendOk : Bool) :
    Reflection × Except String DeliveryResult :=
  if !is_valid_email third_party_email then
    (r, .error "Invalid email address format")
  else
    let r := { r with receiver_user_id := some (pyStr third_party_email) }
    if !sendOk then (r, .error "Email sending failed")
    else
      let r := { r with delivery_mode := some (.num 4), is_delivered := 1 }
      (r, .ok
        { reflection_id := rid,
          sarthi_message := "Your reflection has been sent to " ++ pyStr third_party_email ++ " successfully! 📧 Now, how are you feeling after completing this reflection?",
          data := [[("third_party_email_sent", .bool true),
                    ("recipient", third_party_email)]] })

end DeliveryService

namespace NormalFlow

open DeliveryService in
/-- The stage-27 choice branch (`app/handlers/normal_flow.py:282-388`,
`request.data` present): dispatch on the first choice dict.  A raised
exception from the delivery service (`Except.error`) is caught by the
handler and turned into the generic failure response; writes committed
before the raise persist. -/
def handle_stage27_choice (st : SessionState) (rid : String)
    (user_choice : JDict) (userName : Option String)
    (emailOk whatsOk thirdOk : Bool) : SessionState × MessageResponse :=
  let r := st.reflection
  let fromResult : Reflection × Except String DeliveryResult → SessionState × MessageResponse :=
    fun (r', res) =>
      match res with
      | .ok d =>
        ({ st with reflection := r' },
         { success := d.success, reflection_id := some d.reflection_id,
           sarthi_message := some d.sarthi_message,
           current_stage := some d.current_stage, next_stage := some d.next_stage,
           data := d.data })
      | .error _ =>
        ({ st with reflection := r' },
         { success := false, reflection_id := some rid,
           sarthi_message := some "Failed to process your choice. Please try again.",
           current_stage := some 27, next_stage := some 27 })
  let fromIdentity : Option (Reflection × DeliveryResult) → SessionState × MessageResponse :=
    fun res =>
      match res with
      | some (r', d) =>
        ({ st with reflection := r' },
         { success := d.success, reflection_id := some d.reflection_id,
           sarthi_message := some d.sarthi_message,
           current_stage := some d.current_stage, next_stage := some d.next_stage,
           data := d.data })
      | none =>
        -- `result` is None; subscripting it raises, caught by the handler
        (st, { success := false, reflection_id := some rid,
               sarthi_message := some "Failed to process your choice. Please try again.",
               current_stage := some 27, next_stage := some 27 })
  if JDict.hasKey user_choice "reveal_name" then
    fromIdentity (process_identity_choice r rid
      (JDict.getD user_choice "reveal_name" .null)
      (JDict.getD user_choice "name" .null) userName)
  else if JDict.hasKey user_choice "name" then
    fromIdentity (process_identity_choice r rid (.bool true)
      (JDict.getD user_choice "name" .null) userName)
  else if JDict.hasKey user_choice "delivery_mode" then
    let delivery_mode := JDict.getD user_choice "delivery_mode" .null
    -- Validate required contact info before touching the delivery service
    if (pyEqNum delivery_mode 0 || pyEqNum delivery_mode 2) &&
        !(JDict.getD user_choice "recipient_email" .null).truthy then
      (st, { success := false, reflection_id := some rid,
             sarthi_message := some "Email address is required for email delivery.",
             current_stage := some 27, next_stage := some 27 })
    else if (pyEqNum delivery_mode 1 || pyEqNum delivery_mode 2) &&
        !(JDict.getD user_choice "recipient_phone" .null).truthy then
      (st, { success := false, reflection_id := some rid,
             sarthi_message := some "Phone number is required for WhatsApp delivery.",
             current_stage := some 27, next_stage := some 27 })
    else
      fromResult (process_delivery_choice r rid delivery_mode
        (JDict.getD user_choice "recipient_email" .null)
        (JDict.getD user_choice "recipient_phone" .null) emailOk whatsOk)
  else if JDict.hasKey user_choice "email" then
    fromResult (process_third_party_email r rid
      (JDict.getD user_choice "email" .null) thirdOk)
  else
    (st, { success := false, reflection_id := some rid,
           sarthi_message := some "Invalid choice format.",
           current_stage := some 27, next_stage := some 27 })

end NormalFlow

/-! ## Template processor (`prompt_engine/template_processor.py`) -/

namespace TemplateProcessor

/-- The character class `[\w-]` of the placeholder regexes (ASCII `\w` plus
the hyphen). -/
def wordChar (c : Char) : Bool :=
  ('a' ≤ c && c ≤ 'z') || ('A' ≤ c && c ≤ 'Z') || ('0' ≤ c && c ≤ '9') ||
    c == '_' || c == '-'

/-- `re.findall` of the single-brace pattern `\x7b([\w-]+)\x7d`:
left-to-right non-overlapping scan, one-character advance on failure. -/
def findSingle : List Char → List String
  | [] => []
  | c :: rest =>
    if c == '{' then
      let w := rest.takeWhile wordChar
      if !w.isEmpty && ((rest.drop w.length).head? == some '}') then
        String.mk w :: findSingle (rest.drop (w.length + 1))
      else findSingle rest
    else findSingle rest
termination_by l => l.length
decreasing_by
  · simp [List.length_drop]; omega
  · simp
  · simp

/-- `re.findall` of the double-brace pattern `\x7b\x7b([\w-]+)\x7d\x7d`. -/
def findDouble : List Char → List String
  | [] => []
  | c :: rest =>
    if c == '{' then
      match rest with
      | [] => []
      | c2 :: rest2 =>
        if c2 == '{' then
          let w := rest2.takeWhile wordChar
          if !w.isEmpty && ((rest2.drop w.length).take 2 == ['}', '}']) then
            String.mk w :: findDouble (rest2.drop (w.length + 2))
          else findDouble (c2 :: rest2)
        else findDouble (c2 :: rest2)
    else findDouble rest
termination_by l => l.length
decreasing_by
  · simp [List.length_drop]; omega
  · simp
  · simp
  · simp

/-- Python `str.replace(old, new)`: every non-overlapping occurrence, left
to right (`old` is nonempty at all call sites). -/
def replaceSub (old new : List Char) : List Char → List Char
  | [] => []
  | c :: t =>
    if h : old ≠ [] ∧ old.isPrefixOf (c :: t) then
      new ++ replaceSub old new ((c :: t).drop old.length)
    else
      c :: replaceSub old new t
termination_by l => l.length
decreasing_by
  · simp [List.length_drop]
    cases old with
    | nil => exact absurd rfl h.1
    | cons o os => simp
  · simp

/-- `str(data[var]) if data[var] is not None else ""` of the substitution
loops (`template_processor.py:46,52`). -/
def valueStr (data : JDict) (var : String) : String :=
  match JDict.get? data var with
  | some v => if v == JVal.null then "" else pyStr v
  | none => ""

/-- The missing-variable fill of `template_processor.py:38-39`
(`data[var] = ""` for every template variable absent from `data`). -/
def fillMissing (data : JDict) (vars : List String) : JDict :=
  vars.foldl (fun d v => if JDict.hasKey d v then d else JDict.set d v (.str "")) data

/-- `TemplateProcessor.substitute_variables`
(`prompt_engine/template_processor.py:9-55`): replacement mode — missing
variables are added as empty strings, then double-brace variables are
replaced first, single-brace variables second, each by a global
`str.replace`. -/
def substitute_variables (template : String) (data : JDict) : String :=
  if template = "" then ""
  else
    let single_brace_vars := findSingle template.toList
    let double_brace_vars := findDouble template.toList
    let all_variables := (single_brace_vars ++ double_brace_vars).dedup
    if all_variables.isEmpty then template
    else
      let data := fillMissing data all_variables
      let r := double_brace_vars.foldl
        (fun r var =>
          if JDict.hasKey data var then
            replaceSub ('{' :: '{' :: var.toList ++ ['}', '}'])
              (valueStr data var).toList r
          else r) template.toList
      let r := single_brace_vars.foldl
        (fun r var =>
          if JDict.hasKey data var then
            replaceSub ('{' :: var.toList ++ ['}'])
              (valueStr data var).toList r
          else r) r
      String.mk r

/-! ### Segment view of templates, for stating the resolution contract.

A template is the rendering of a list of segments: literal characters,
single-brace placeholders and double-brace placeholders.  `specSubstitute`
below is the *specification-side* definition of resolution, written from the
spec's words (§4.1): substitute every placeholder simultaneously, applying
one uniform policy — a supplied variable's value, the empty string for a
missing one — and leave no token behind. -/

/-- One template segment. -/
inductive Seg where
  | lit (c : Char)
  | svar (v : String)
  | dvar (v : String)
deriving Repr, DecidableEq, BEq

/-- Rendering a segment back to template text. -/
def Seg.render : Seg → List Char
  | .lit c => [c]
  | .svar v => '{' :: (v.toList ++ ['}'])
  | .dvar v => '{' :: '{' :: (v.toList ++ ['}', '}'])

/-- Rendering a segment list. -/
def render (L : List Seg) : List Char :=
  (L.map Seg.render).flatten

/-- Well-formedness of a segment: literals are brace-free, placeholder names
are nonempty words. -/
def Seg.wf : Seg → Bool
  | .lit c => c != '{' && c != '}'
  | .svar v => !v.toList.isEmpty && v.toList.all wordChar
  | .dvar v => !v.toList.isEmpty && v.toList.all wordChar

/-- Well-formedness of a template's segment list. -/
def wfTemplate (L : List Seg) : Bool :=
  L.all Seg.wf

/-- The value resolution uses for a variable: the supplied entry (Python
`str`, with `None` as the empty string), or the empty string when the
variable is missing — the uniform lenient policy. -/
def resolvedValue (data : JDict) (var : String) : String :=
  match JDict.get? data var with
  | some v => if v == JVal.null then "" else pyStr v
  | none => ""

/-- Specification-side resolution (spec §4.1): simultaneously substitute
every placeholder token by its resolved value. -/
def specSubstitute (L : List Seg) (data : JDict) : List Char :=
  (L.map (fun s =>
    match s with
    | .lit c => [c]
    | .svar v => (resolvedValue data v).toList
    | .dvar v => (resolvedValue data v).toList)).flatten

/-- A string with no brace characters (values must not smuggle new
placeholder syntax into the output). -/
def braceFree (s : String) : Bool :=
  s.toList.all (fun c => c != '{' && c != '}')

/-- Names of the double-brace placeholders of a segment list, in order
(what the double-brace findall returns on its rendering). -/
def dvarNames : List Seg → List String
  | [] => []
  | .dvar v :: L => v :: dvarNames L
  | _ :: L => dvarNames L

/-- Names the single-brace findall returns on a rendering: single-brace
placeholders, and double-brace ones through their inner `\x7bv\x7d` match. -/
def svarNames : List Seg → List String
  | [] => []
  | .svar v :: L => v :: svarNames L
  | .dvar v :: L => v :: svarNames L
  | _ :: L => svarNames L

/-- Replace every double-brace placeholder named `v` by the literal text
`val` (one global `str.replace` step, seen on segments). -/
def replaceDvar (v : String) (val : List Char) : List Seg → List Seg
  | [] => []
  | .dvar w :: L =>
    (if w = v then val.map Seg.lit else [.dvar w]) ++ replaceDvar v val L
  | s :: L => s :: replaceDvar v val L

/-- Replace every single-brace placeholder named `v` by the literal text
`val`. -/
def replaceSvar (v : String) (val : List Char) : List Seg → List Seg
  | [] => []
  | .svar w :: L =>
    (if w = v then val.map Seg.lit else [.svar w]) ++ replaceSvar v val L
  | s :: L => s :: replaceSvar v val L

/-- Replace every double-brace placeholder by `value` of its name. -/
def substDvarsAll (value : String → List Char) : List Seg → List Seg
  | [] => []
  | .dvar v :: L => (value v).map Seg.lit ++ substDvarsAll value L
  | s :: L => s :: substDvarsAll value L

/-- Replace every single-brace placeholder by `value` of its name. -/
def substSvarsAll (value : String → List Char) : List Seg → List Seg
  | [] => []
  | .svar v :: L => (value v).map Seg.lit ++ substSvarsAll value L
  | s :: L => s :: substSvarsAll value L

/-- No double-brace placeholder left. -/
def dvarFree (L : List Seg) : Bool :=
  L.all (fun s => match s with | .dvar _ => false | _ => true)

end TemplateProcessor

/-! ## Specification-side definitions for the normalization contract
(spec §4.2), to be compared against the client embedding -/

namespace LLMClientSpec

/-- First present non-empty (truthy) value among a priority list of keys. -/
def firstPresentTruthy (raw : JDict) : List String → Option JVal
  | [] => none
  | k :: ks =>
    match JDict.get? raw k with
    | some v => if v.truthy then some v else firstPresentTruthy raw ks
    | none => firstPresentTruthy raw ks

/-- Spec §4.2: the user-facing message is the first present non-empty value
among `reflection, message, response, user_message, reply, output`, in that
priority order, defaulting to the fixed generic empathetic line. -/
def specUserMessage (raw : JDict) : String :=
  match firstPresentTruthy raw
      ["reflection", "message", "response", "user_message", "reply", "output"] with
  | some v => pyStr v
  | none => "I hear what you're sharing with me."

end LLMClientSpec

/-- The machine-facing part of a canonical client output
(`llm_response.get("system_response", \x7b\x7d)` as a dict). -/
def systemPayload (d : JDict) : JDict :=
  match JDict.getD d "system_response" (.obj []) with
  | .obj fields => fields
  | _ => []

/-! # Theorems -/

/-! ## Dictionary lemmas -/

namespace JDict

theorem get?_set_self (d : JDict) (k : String) (v : JVal) :
    get? (set d k v) k = some v := by
  induction d with
  | nil => simp [set, get?]
  | cons kv t ih =>
    simp only [set]
    by_cases h : kv.1 = k
    · rw [if_pos (by simpa using h)]
      simp [get?, List.find?]
    · rw [if_neg (by simpa using h)]
      simp only [get?, List.find?] at ih ⊢
      rw [show (kv.1 == k) = false from by simpa using h]
      exact ih

theorem get?_set_ne (d : JDict) (k k' : String) (v : JVal) (h : k' ≠ k) :
    get? (set d k' v) k = get? d k := by
  induction d with
  | nil =>
    simp only [set, get?, List.find?]
    rw [show (k' == k) = false from by simpa using h]
  | cons kv t ih =>
    simp only [set]
    by_cases hk : kv.1 = k'
    · rw [if_pos (by simpa using hk)]
      have h1 : (k' == k) = false := by simpa using h
      have h2 : (kv.1 == k) = false := by rw [hk]; simpa using h
      simp only [get?, List.find?]
      simp [h1, h2]
    · rw [if_neg (by simpa using hk)]
      simp only [get?, List.find?] at ih ⊢
      cases hkv : (kv.1 == k) with
      | true => simp
      | false => simpa using ih

end JDict

/-! ## C4 — LLM response normalization -/

/-- The message-key walk of `_extract_user_message` realizes the spec's
priority selection. -/
theorem extract_user_message_go_spec (keys : List String) (raw : JDict) :
    LLMClient.extract_user_message.go keys raw =
      match LLMClientSpec.firstPresentTruthy raw keys with
      | some v => pyStr v
      | none => "I hear what you're sharing with me." := by
  induction keys with
  | nil => simp [LLMClient.extract_user_message.go, LLMClientSpec.firstPresentTruthy]
  | cons k ks ih =>
    simp only [LLMClient.extract_user_message.go, LLMClientSpec.firstPresentTruthy]
    cases hk : JDict.get? raw k with
    | none => simpa using ih
    | some v =>
      by_cases hv : v.truthy
      · simp [hv]
      · simpa [hv] using ih

/-- `_extract_user_message` equals the specification-side selection. -/
theorem extract_user_message_spec (raw : JDict) :
    LLMClient.extract_user_message raw = LLMClientSpec.specUserMessage raw := by
  simp [LLMClient.extract_user_message, LLMClientSpec.specUserMessage,
    extract_user_message_go_spec]

/-- The trailing collection loop of `_extract_system_data` never touches a
key outside its field list. -/
theorem get?_collect_foldl_preserve (raw : JDict) (fields : List String)
    (sd : JDict) (k : String) (h : k ∉ fields) :
    JDict.get? (fields.foldl (fun sd field =>
        match JDict.get? raw field with
        | some v => if JDict.hasKey sd field then sd else JDict.set sd field v
        | none => sd) sd) k = JDict.get? sd k := by
  induction fields generalizing sd with
  | nil => rfl
  | cons f fs ih =>
    have hf : k ≠ f := fun hk => h (hk ▸ List.mem_cons_self f fs)
    have hfs : k ∉ fs := fun hk => h (List.mem_cons_of_mem f hk)
    simp only [List.foldl_cons]
    cases hr : JDict.get? raw f with
    | none => exact ih _ hfs
    | some v =>
      by_cases hkk : JDict.hasKey sd f
      · simp only [hkk, if_true]
        exact ih _ hfs
      · simp only [hkk, Bool.false_eq_true, if_false]
        rw [ih _ hfs, JDict.get?_set_ne _ _ _ _ (Ne.symm hf)]

/-- C4: normalization always produces the canonical two-part shape: a raw
object already carrying both `system_response` and `user_response` keys is
passed through with `reflection_id` attached; otherwise the user-facing
message is the first present non-empty value among `reflection, message,
response, user_message, reply, output` in that priority order (defaulting to
the fixed empathetic line), and boolean `isValidName` / `isValid` flags are
translated to the string enum `"yes"`/`"no"` in the system payload. -/
theorem c4_normalization_contract (raw : JDict) (rid : JVal) :
    (JDict.hasKey raw "system_response" = true →
     JDict.hasKey raw "user_response" = true →
      LLMClient.normalize_response raw rid = JDict.set raw "reflection_id" rid) ∧
    (¬(JDict.hasKey raw "system_response" = true ∧
       JDict.hasKey raw "user_response" = true) →
      LLMClient.normalize_response raw rid =
        [("reflection_id", rid),
         ("system_response", .obj (LLMClient.extract_system_data raw)),
         ("user_response", .obj
           [("message", .str (LLMClientSpec.specUserMessage raw))])]) ∧
    (∀ b : Bool, JDict.get? raw "isValidName" = some (.bool b) →
      JDict.get? (LLMClient.extract_system_data raw) "is_valid_name" =
        some (.str (if b then "yes" else "no"))) ∧
    (∀ b : Bool, JDict.get? raw "isValidName" = none →
      JDict.get? raw "isValid" = some (.bool b) →
      JDict.get? (LLMClient.extract_system_data raw) "is_valid_name" =
        some (.str (if b then "yes" else "no"))) := by
  refine ⟨?_, ?_, ?_, ?_⟩
  · intro h1 h2
    simp [LLMClient.normalize_response, h1, h2]
  · intro h
    have hb : (JDict.hasKey raw "system_response" &&
        JDict.hasKey raw "user_response") = false := by
      cases h1 : JDict.hasKey raw "system_response" with
      | false => simp
      | true =>
        cases h2 : JDict.hasKey raw "user_response" with
        | false => simp
        | true => exact absurd ⟨h1, h2⟩ h
    simp [LLMClient.normalize_response, hb, extract_user_message_spec]
  · intro b h
    have hname : ("name" : String) ≠ "is_valid_name" := by decide
    have hnames : ("names" : String) ≠ "is_valid_name" := by decide
    have hmem : ("is_valid_name" : String) ∉
        ["intent", "confidence", "analysis", "validation", "classification",
         "extracted_data", "metadata", "assessment", "recommendation", "proceed",
         "choice", "confirmation", "user_wants_delivery", "decision", "send_to_user",
         "name", "extracted_name", "recipient_name", "relationship", "emotions",
         "names"] := by decide
    simp only [LLMClient.extract_system_data, h]
    rw [get?_collect_foldl_preserve raw _ _ _ hmem]
    cases hn : JDict.get? raw "name" with
    | none =>
      cases hns : JDict.get? raw "names" with
      | none => simp [JDict.get?_set_self, JVal.truthy]
      | some ns => simp [JDict.get?_set_ne _ _ _ _ hnames, JDict.get?_set_self, JVal.truthy]
    | some n =>
      cases hns : JDict.get? raw "names" with
      | none => simp [JDict.get?_set_ne _ _ _ _ hname, JDict.get?_set_self, JVal.truthy]
      | some ns =>
        simp [JDict.get?_set_ne _ _ _ _ hnames,
          JDict.get?_set_ne _ _ _ _ hname, JDict.get?_set_self, JVal.truthy]
  · intro b h h'
    have hname : ("name" : String) ≠ "is_valid_name" := by decide
    have hnames : ("names" : String) ≠ "is_valid_name" := by decide
    have hmem : ("is_valid_name" : String) ∉
        ["intent", "confidence", "analysis", "validation", "classification",
         "extracted_data", "metadata", "assessment", "recommendation", "proceed",
         "choice", "confirmation", "user_wants_delivery", "decision", "send_to_user",
         "name", "extracted_name", "recipient_name", "relationship", "emotions",
         "names"] := by decide
    simp only [LLMClient.extract_system_data, h, h']
    rw [get?_collect_foldl_preserve raw _ _ _ hmem]
    cases hn : JDict.get? raw "name" with
    | none =>
      cases hns : JDict.get? raw "names" with
      | none => simp [JDict.get?_set_self, JVal.truthy]
      | some ns => simp [JDict.get?_set_ne _ _ _ _ hnames, JDict.get?_set_self, JVal.truthy]
    | some n =>
      cases hns : JDict.get? raw "names" with
      | none => simp [JDict.get?_set_ne _ _ _ _ hname, JDict.get?_set_self, JVal.truthy]
      | some ns =>
        simp [JDict.get?_set_ne _ _ _ _ hnames,
          JDict.get?_set_ne _ _ _ _ hname, JDict.get?_set_self, JVal.truthy]

/-- Witness for C4 at concrete inputs: a pass-through raw object, a raw
object resolved by priority, and boolean validity flags of both spellings. -/
theorem c4_normalization_contract_witness :
    (LLMClient.normalize_response
        [("system_response", .obj []), ("user_response", .obj [("message", .str "hi")])]
        (.str "r1") =
      JDict.set
        [("system_response", .obj []), ("user_response", .obj [("message", .str "hi")])]
        "reflection_id" (.str "r1")) ∧
    (LLMClient.normalize_response [("response", .str ""), ("reply", .str "take care")]
        (.str "r1") =
      [("reflection_id", .str "r1"),
       ("system_response", .obj
         (LLMClient.extract_system_data [("response", .str ""), ("reply", .str "take care")])),
       ("user_response", .obj
         [("message", .str (LLMClientSpec.specUserMessage
            [("response", .str ""), ("reply", .str "take care")]))])]) ∧
    (JDict.get? (LLMClient.extract_system_data
        [("isValidName", .bool false), ("name", .str "Maya")]) "is_valid_name" =
      some (.str "no")) ∧
    (JDict.get? (LLMClient.extract_system_data
        [("isValid", .bool true), ("name", .str "Maya")]) "is_valid_name" =
      some (.str "yes")) := by
  refine ⟨?_, ?_, ?_, ?_⟩
  · exact (c4_normalization_contract
      [("system_response", .obj []), ("user_response", .obj [("message", .str "hi")])]
      (.str "r1")).1 rfl rfl
  · exact (c4_normalization_contract
      [("response", .str ""), ("reply", .str "take care")] (.str "r1")).2.1
      (by decide)
  · exact (c4_normalization_contract
      [("isValidName", .bool false), ("name", .str "Maya")] .null).2.2.1 false rfl
  · exact (c4_normalization_contract
      [("isValid", .bool true), ("name", .str "Maya")] .null).2.2.2 true rfl rfl

/-! ## Small state-update lemmas -/

theorem save_message_reflection (st : SessionState) (m : String) (s n now : Int)
    (b : Bool) :
    (DbHandler.save_message st m s n now b).reflection = st.reflection := rfl

theorem update_reflection_stage_reflection (st : SessionState) (n : Int) :
    (DbHandler.update_reflection_stage st n).reflection =
      { st.reflection with current_stage := n } := rfl

/-! ## C1 — degraded Language Model Gateway results -/

/-- The degraded fallback's user-visible apology line. -/
theorem c1_degraded_message_text (rid : JVal) (model : String) :
    JDict.get? (LLMClient.mock_llm_failure_response rid model) "user_response" =
      some (.obj [("message", .str "I'm sorry, I seem to be having technical difficulties. Please try again in a moment.")]) := rfl

/-- C1 counterexample: a degraded Gateway result (provider outcome `none`,
whose fallback payload carries the `LLM_API_FAILURE` error marker) processed
at a model-facing stage with a declared next stage.  The claim says the
engine leaves `current_stage` unchanged and returns `success = false`; the
code advances the stage from 2 to 3 and returns `success = true` (it even
overwrites `flow_type` with the fallback's `NO_OVERRIDE` intent). -/
theorem c1_degraded_counterexample :
    (StageEngine.process_and_respond
      { prompt := "p", next_stage := some 3, is_static := true, prompt_type := 1 }
      "" none "gpt-4o-mini" "r1"
      { reflection := { current_stage := 2 }, messages := [] }
      2 (some "hi") 7).2.success = true ∧
    (StageEngine.process_and_respond
      { prompt := "p", next_stage := some 3, is_static := true, prompt_type := 1 }
      "" none "gpt-4o-mini" "r1"
      { reflection := { current_stage := 2 }, messages := [] }
      2 (some "hi") 7).1.reflection.current_stage = 3 ∧
    (StageEngine.process_and_respond
      { prompt := "p", next_stage := some 3, is_static := true, prompt_type := 1 }
      "" none "gpt-4o-mini" "r1"
      { reflection := { current_stage := 2 }, messages := [] }
      2 (some "hi") 7).2.sarthi_message =
      some "I'm sorry, I seem to be having technical difficulties. Please try again in a moment." ∧
    (StageEngine.process_and_respond
      { prompt := "p", next_stage := some 3, is_static := true, prompt_type := 1 }
      "" none "gpt-4o-mini" "r1"
      { reflection := { current_stage := 2 }, messages := [] }
      2 (some "hi") 7).1.reflection.flow_type = some (.str "NO_OVERRIDE") :=
  ⟨rfl, rfl, rfl, rfl⟩

/-- C1 amended: a degraded Gateway result is surfaced as the turn's message,
but the turn is otherwise processed as a normal one — the fallback's system
payload is applied (overwriting `flow_type` with `"NO_OVERRIDE"`), the stage
advances to the stage definition's declared next stage when one exists
(staying put only when `next_stage` is null), and the response reports
`success = true`.  `success = false` with no stage change arises only from
the handler-side `LLMProcessingError` path, which the always-well-formed
client output never triggers. -/
theorem c1_degraded_turn_behavior_normal_form (cfg : StageCfg)
    (dynPrompt model rid : String) (st : SessionState) (cur : Int)
    (reqMsg : Option String) (now : Int) (h : cfg.prompt_type = 1) :
    StageEngine.base_process_and_respond cfg dynPrompt none model rid st cur reqMsg now =
      (let st1 : SessionState :=
        { st with reflection :=
          { st.reflection with flow_type := some (.str "NO_OVERRIDE") } }
       let st2 := match reqMsg with
         | some m => if m ≠ "" then DbHandler.save_message st1 m 0 cur now else st1
         | none => st1
       let msg := "I'm sorry, I seem to be having technical difficulties. Please try again in a moment."
       let st3 := match cfg.next_stage with
         | some n =>
           DbHandler.save_message (DbHandler.update_reflection_stage st2 n) msg 1 n now
         | none => DbHandler.save_message st2 msg 1 cur now
       (st3, msg,
        [("intent", .str "NO_OVERRIDE"), ("error", .str "LLM_API_FAILURE"),
         ("engine", .str model)])) := by
  have hpt : (cfg.prompt_type == 0) = false := by simp [h]
  simp only [StageEngine.base_process_and_respond, hpt, Bool.false_eq_true, if_false]
  rfl

theorem c1_degraded_turn_behavior (cfg : StageCfg) (dynPrompt model rid : String)
    (st : SessionState) (cur : Int) (reqMsg : Option String) (now : Int)
    (h : cfg.prompt_type = 1) :
    (StageEngine.process_and_respond cfg dynPrompt none model rid st cur reqMsg now).2.success
        = true ∧
    (StageEngine.process_and_respond cfg dynPrompt none model rid st cur reqMsg now).2.sarthi_message
        = some "I'm sorry, I seem to be having technical difficulties. Please try again in a moment." ∧
    (StageEngine.process_and_respond cfg dynPrompt none model rid st cur reqMsg now).1.reflection.flow_type
        = some (.str "NO_OVERRIDE") ∧
    (StageEngine.process_and_respond cfg dynPrompt none model rid st cur reqMsg now).1.reflection.current_stage
        = (match cfg.next_stage with
           | some n => n
           | none => st.reflection.current_stage) := by
  simp only [StageEngine.process_and_respond,
    c1_degraded_turn_behavior_normal_form cfg dynPrompt model rid st cur reqMsg now h]
  refine ⟨?_, ?_, ?_, ?_⟩
  · trivial
  · trivial
  · cases hns : cfg.next_stage <;> cases reqMsg <;>
      simp [DbHandler.save_message, DbHandler.update_reflection_stage] <;>
      split <;> simp [DbHandler.save_message]
  · cases hns : cfg.next_stage <;> cases reqMsg <;>
      simp [DbHandler.save_message, DbHandler.update_reflection_stage] <;>
      split <;> simp [DbHandler.save_message]

/-- Witness for C1 amended at a concrete model-facing stage configuration. -/
theorem c1_degraded_turn_behavior_witness :
    (StageEngine.process_and_respond
      { prompt := "v", next_stage := none, is_static := false, prompt_type := 1 }
      "dyn" none "gpt-4o-mini" "r2"
      { reflection := { current_stage := 24 }, messages := [] }
      24 none 0).2.success = true ∧
    (StageEngine.process_and_respond
      { prompt := "v", next_stage := none, is_static := false, prompt_type := 1 }
      "dyn" none "gpt-4o-mini" "r2"
      { reflection := { current_stage := 24 }, messages := [] }
      24 none 0).1.reflection.current_stage = 24 := by
  have h := c1_degraded_turn_behavior
    { prompt := "v", next_stage := none, is_static := false, prompt_type := 1 }
    "dyn" "gpt-4o-mini" "r2"
    { reflection := { current_stage := 24 }, messages := [] }
    24 none 0 rfl
  exact ⟨h.1, h.2.2.2⟩

/-! ## C2 — critical severity locks the session -/

/-- C2: whenever the severity classifier rates the turn critical (an exact
blocklist-phrase hit, or a red-category similarity at or above the critical
threshold — exactly the inputs on which `DistressDetector.check` returns 1),
the orchestrator's distress step locks the reflection (`is_delivered = 2`),
appends the user's utterance as a distress-flagged message, returns the
fixed crisis-resource message with `success = false`, leaves
`current_stage` untouched, and short-circuits all further stage processing
(the rest of the pipeline, `rest`, is never consulted). -/
theorem c2_critical_locks_session
    (block_list : List String) (message : String)
    (vres : Option (ℚ × String)) (redT yellowT : ℚ)
    (st : SessionState) (rid model : String) (now : Int)
    (llmOutcome : Option JDict) (prompt23 : String)
    (rest : SessionState → SessionState × MessageResponse)
    (h : DistressDetector.check block_list message vres redT yellowT = 1) :
    DistressHandler.orchestrate
        (DistressDetector.check block_list message vres redT yellowT)
        st message rid model now llmOutcome prompt23 rest =
      (⟨{ st.reflection with is_delivered := 2 },
        st.messages ++ [{ sender := 0, message := message,
                          current_stage := some (-1),
                          is_distress := true, created_at := now }]⟩,
       { success := false, reflection_id := some rid,
         sarthi_message := some DistressHandler.crisisMessage,
         data := [[("distress_level", .str "critical")]] }) := by
  simp [DistressHandler.orchestrate, DistressHandler.handle_distress_check, h,
    DbHandler.update_reflection_status, DbHandler.save_message]

/-- Witness for C2: spec §8 Scenario A, utterance "I want to end it all"
with a blocklist containing "end it all". -/
theorem c2_critical_locks_session_witness :
    DistressDetector.check ["end it all"] "I want to end it all" none 0 0 = 1 ∧
    DistressHandler.orchestrate
        (DistressDetector.check ["end it all"] "I want to end it all" none 0 0)
        { reflection := { current_stage := 7 }, messages := [] }
        "I want to end it all" "r1" "gpt-4o-mini" 5 none "p23"
        (fun s => (s, { success := true })) =
      (⟨{ ({ current_stage := 7 } : Reflection) with is_delivered := 2 },
        [{ sender := 0, message := "I want to end it all",
           current_stage := some (-1), is_distress := true, created_at := 5 }]⟩,
       { success := false, reflection_id := some "r1",
         sarthi_message := some DistressHandler.crisisMessage,
         data := [[("distress_level", .str "critical")]] }) := by
  have h : DistressDetector.check ["end it all"] "I want to end it all" none 0 0 = 1 := by
    rfl
  refine ⟨h, ?_⟩
  exact c2_critical_locks_session ["end it all"] "I want to end it all" none 0 0
    { reflection := { current_stage := 7 }, messages := [] } "r1" "gpt-4o-mini" 5
    none "p23" (fun s => (s, { success := true })) h

/-! ## C3 — stage-5 name validation gating -/

/-- C3: evaluation of stage 5 at the failing input.  The model's canonical
payload carries `is_valid_name = "no"` (with `name = "Bob"`), so by the
claim the engine must stay at stage 5 and re-prompt without committing the
name.  Instead the handler — whose `is_valid` flag is computed from the
never-produced key `"validNames"` and then never read — commits
`receiver_name = "Bob"` and advances to the apology playbook's first stage
(9): validity gating is dead code. -/
theorem c3_invalid_name_still_commits_and_advances :
    (NormalFlow.handle_stage5
      { reflection := { current_stage := 5, flow_type := some (.str "apology") },
        messages := [] }
      "it was Bob" "r1" "gpt-4o-mini"
      (some [("system_response", .obj
                [("is_valid_name", .str "no"), ("name", .str "Bob")]),
             ("user_response", .obj
                [("message", .str "That doesn't look like a valid name to me.")])])
      3
      { prompt := "Apology playbook start", next_stage := none,
        is_static := true, prompt_type := 0 }
      "" none).1.reflection.receiver_name = some (.str "Bob") ∧
    (NormalFlow.handle_stage5
      { reflection := { current_stage := 5, flow_type := some (.str "apology") },
        messages := [] }
      "it was Bob" "r1" "gpt-4o-mini"
      (some [("system_response", .obj
                [("is_valid_name", .str "no"), ("name", .str "Bob")]),
             ("user_response", .obj
                [("message", .str "That doesn't look like a valid name to me.")])])
      3
      { prompt := "Apology playbook start", next_stage := none,
        is_static := true, prompt_type := 0 }
      "" none).1.reflection.current_stage = 9 ∧
    (NormalFlow.handle_stage5
      { reflection := { current_stage := 5, flow_type := some (.str "apology") },
        messages := [] }
      "it was Bob" "r1" "gpt-4o-mini"
      (some [("system_response", .obj
                [("is_valid_name", .str "no"), ("name", .str "Bob")]),
             ("user_response", .obj
                [("message", .str "That doesn't look like a valid name to me.")])])
      3
      { prompt := "Apology playbook start", next_stage := none,
        is_static := true, prompt_type := 0 }
      "" none).2.success = true :=
  ⟨rfl, rfl, rfl⟩

/-! ## C9 — applying the model's system fields -/

/-- C9 counterexample: at a stage other than the context-extraction stage
(here `current_stage = 3`), applying a system payload whose `intent` is
`"apology"` still overwrites `flow_type` — the claim says `flow_type` is
left unchanged away from stage 1. -/
theorem c9_flow_type_written_any_stage_counterexample :
    (StageEngine.update_database_with_system_message
      [("intent", .str "apology")]
      { current_stage := 3, flow_type := some (.str "venting") }).flow_type
        = some (.str "apology") ∧
    (StageEngine.update_database_with_system_message
      [("intent", .str "apology")]
      { current_stage := 3, flow_type := some (.str "venting") }).current_stage = 3 :=
  ⟨rfl, rfl⟩

/-- C9 amended: applying a recognized system payload to the reflection
updates recipient name, relationship and emotion from their truthy fields,
and writes `flow_type` from a truthy `intent` field at *every* stage where
a payload is applied — the source has no stage condition, so the stage-1
restriction of the claim does not exist.  The application never touches
`current_stage` or `is_delivered`. -/
theorem c9_system_field_application (sys : JDict) (r : Reflection) :
    (StageEngine.update_database_with_system_message sys r).receiver_name =
      (match JDict.get? sys "recipient_name" with
       | some v => if v.truthy then some v else r.receiver_name
       | none => r.receiver_name) ∧
    (StageEngine.update_database_with_system_message sys r).receiver_relationship =
      (match JDict.get? sys "relationship" with
       | some v => if v.truthy then some v else r.receiver_relationship
       | none => r.receiver_relationship) ∧
    (StageEngine.update_database_with_system_message sys r).emotion =
      (match JDict.get? sys "emotions" with
       | some v => if v.truthy then some v else r.emotion
       | none => r.emotion) ∧
    (StageEngine.update_database_with_system_message sys r).flow_type =
      (match JDict.get? sys "intent" with
       | some v => if v.truthy then some v else r.flow_type
       | none => r.flow_type) ∧
    (StageEngine.update_database_with_system_message sys r).current_stage =
      r.current_stage ∧
    (StageEngine.update_database_with_system_message sys r).is_delivered =
      r.is_delivered := by
  unfold StageEngine.update_database_with_system_message
  cases h1 : JDict.get? sys "recipient_name" <;>
  cases h2 : JDict.get? sys "relationship" <;>
  cases h3 : JDict.get? sys "emotions" <;>
  cases h4 : JDict.get? sys "intent" <;>
    simp [h1, h2, h3, h4] <;> (repeat' split) <;> simp_all

/-! ## C7 — session start and `is_delivered` -/

/-- C7 counterexample: the chat's latest reflection has `is_delivered = 3`
(completed without delivery).  By the claim a fresh reflection must be
created at stage 0; the code instead offers to resume it ("Welcome back!
Continue?") and creates nothing. -/
theorem c7_completed_undelivered_counterexample :
    (InitialFlow.handle_initial_flow
      [{ reflection := { current_stage := 12, is_delivered := 3 }, messages := [] }]
      [] none
      { prompt := "w", next_stage := some 1, is_static := false, prompt_type := 0 }
      "dyn0" none
      { prompt := "r", next_stage := some 13, is_static := true, prompt_type := 0 }
      "dynR" none "gpt-4o-mini" "r1" 0).1 =
      [{ reflection := { current_stage := 12, is_delivered := 3 }, messages := [] }] ∧
    (InitialFlow.handle_initial_flow
      [{ reflection := { current_stage := 12, is_delivered := 3 }, messages := [] }]
      [] none
      { prompt := "w", next_stage := some 1, is_static := false, prompt_type := 0 }
      "dyn0" none
      { prompt := "r", next_stage := some 13, is_static := true, prompt_type := 0 }
      "dynR" none "gpt-4o-mini" "r1" 0).2.sarthi_message =
      some "Welcome back! Continue?" :=
  ⟨rfl, rfl⟩

/-- C7 amended: on a session-start turn a fresh reflection (stage 0,
`is_delivered = 0`) is created exactly when there is no latest reflection or
the latest one has `is_delivered` equal to 1 or 2; a latest reflection with
`is_delivered = 3` is — like one with `is_delivered = 0` — offered for
resumption ("Welcome back! Continue?") rather than replaced. -/
theorem c7_fresh_reflection_condition (cs : InitialFlow.ChatState)
    (reqData : List JDict) (reqMsg : Option String)
    (cfg0 : StageCfg) (dynPrompt0 : String) (llmOutcome0 : Option JDict)
    (cfgR : StageCfg) (dynPromptR : String) (llmOutcomeR : Option JDict)
    (model rid : String) (now : Int) :
    (∀ l, cs.getLast? = some l →
      l.reflection.is_delivered = 1 ∨ l.reflection.is_delivered = 2 →
      InitialFlow.handle_initial_flow cs reqData reqMsg cfg0 dynPrompt0 llmOutcome0
          cfgR dynPromptR llmOutcomeR model rid now =
        InitialFlow.handle_create_new_reflection cs cfg0 dynPrompt0 llmOutcome0
          model rid now) ∧
    (cs.getLast? = none →
      InitialFlow.handle_initial_flow cs reqData reqMsg cfg0 dynPrompt0 llmOutcome0
          cfgR dynPromptR llmOutcomeR model rid now =
        InitialFlow.handle_create_new_reflection cs cfg0 dynPrompt0 llmOutcome0
          model rid now) ∧
    (∀ l, cs.getLast? = some l →
      l.reflection.is_delivered ≠ 1 → l.reflection.is_delivered ≠ 2 →
      reqData = [] →
      InitialFlow.handle_initial_flow cs reqData reqMsg cfg0 dynPrompt0 llmOutcome0
          cfgR dynPromptR llmOutcomeR model rid now =
        (cs, { success := true, reflection_id := some rid,
               sarthi_message := some "Welcome back! Continue?",
               data := [[("choice", .str "1"), ("label", .str "Yes")],
                        [("choice", .str "0"), ("label", .str "No")]] })) ∧
    (InitialFlow.handle_create_new_reflection cs cfg0 dynPrompt0 llmOutcome0
        model rid now).1 =
      cs ++ [(StageEngine.process_and_respond cfg0 dynPrompt0 llmOutcome0 model rid
        { reflection := {}, messages := [] } 0 none now).1] := by
  refine ⟨?_, ?_, ?_, ?_⟩
  · intro l hl hd
    have : (l.reflection.is_delivered == 1 || l.reflection.is_delivered == 2) = true := by
      rcases hd with h | h <;> simp [h]
    simp [InitialFlow.handle_initial_flow, hl, this]
  · intro hl
    simp [InitialFlow.handle_initial_flow, hl]
  · intro l hl h1 h2 hdata
    have : (l.reflection.is_delivered == 1 || l.reflection.is_delivered == 2) = false := by
      simp [h1, h2]
    simp [InitialFlow.handle_initial_flow, hl, this, hdata]
  · simp [InitialFlow.handle_create_new_reflection]

/-- Witness for C7 amended: a delivered latest reflection starts fresh; an
`is_delivered = 3` latest reflection is offered resumption. -/
theorem c7_fresh_reflection_condition_witness :
    (InitialFlow.handle_initial_flow
      [{ reflection := { current_stage := 9, is_delivered := 1 }, messages := [] }]
      [] none
      { prompt := "w", next_stage := some 1, is_static := true, prompt_type := 0 }
      "d0" none
      { prompt := "r", next_stage := some 10, is_static := true, prompt_type := 0 }
      "dR" none "gpt-4o-mini" "r1" 0 =
    InitialFlow.handle_create_new_reflection
      [{ reflection := { current_stage := 9, is_delivered := 1 }, messages := [] }]
      { prompt := "w", next_stage := some 1, is_static := true, prompt_type := 0 }
      "d0" none "gpt-4o-mini" "r1" 0) ∧
    (InitialFlow.handle_initial_flow
      [{ reflection := { current_stage := 9, is_delivered := 3 }, messages := [] }]
      [] none
      { prompt := "w", next_stage := some 1, is_static := true, prompt_type := 0 }
      "d0" none
      { prompt := "r", next_stage := some 10, is_static := true, prompt_type := 0 }
      "dR" none "gpt-4o-mini" "r1" 0 =
    ([{ reflection := { current_stage := 9, is_delivered := 3 }, messages := [] }],
     { success := true, reflection_id := some "r1",
       sarthi_message := some "Welcome back! Continue?",
       data := [[("choice", .str "1"), ("label", .str "Yes")],
                [("choice", .str "0"), ("label", .str "No")]] })) := by
  constructor
  · exact (c7_fresh_reflection_condition
      [{ reflection := { current_stage := 9, is_delivered := 1 }, messages := [] }]
      [] none
      { prompt := "w", next_stage := some 1, is_static := true, prompt_type := 0 }
      "d0" none
      { prompt := "r", next_stage := some 10, is_static := true, prompt_type := 0 }
      "dR" none "gpt-4o-mini" "r1" 0).1 _ rfl (Or.inl rfl)
  · exact (c7_fresh_reflection_condition
      [{ reflection := { current_stage := 9, is_delivered := 3 }, messages := [] }]
      [] none
      { prompt := "w", next_stage := some 1, is_static := true, prompt_type := 0 }
      "d0" none
      { prompt := "r", next_stage := some 10, is_static := true, prompt_type := 0 }
      "dR" none "gpt-4o-mini" "r1" 0).2.2.1 _ rfl (by decide) (by decide) rfl

/-! ## C5 — venting sanctuary inactivity -/

/-- After the sanctuary saves the incoming user message, that very message
is the latest user message — so the idle-window check always compares
against the current turn. -/
theorem get_last_user_message_after_save (st : SessionState) (m : String)
    (stage now : Int) (b : Bool) :
    DbHandler.get_last_user_message (DbHandler.save_message st m 0 stage now b) =
      some { sender := 0, message := m, current_stage := some stage,
             is_distress := b, created_at := now } := by
  simp [DbHandler.get_last_user_message, DbHandler.save_message,
    List.filter_append]

/-- Applying a system payload never moves the stage. -/
theorem update_database_with_system_message_stage (sys : JDict) (r : Reflection) :
    (StageEngine.update_database_with_system_message sys r).current_stage =
      r.current_stage := by
  unfold StageEngine.update_database_with_system_message
  cases h1 : JDict.get? sys "recipient_name" <;>
  cases h2 : JDict.get? sys "relationship" <;>
  cases h3 : JDict.get? sys "emotions" <;>
  cases h4 : JDict.get? sys "intent" <;>
    simp [h1, h2, h3, h4] <;> (repeat' split) <;> rfl

/-- C5 counterexample: a venting sanctuary turn whose previous user message
is 4 minutes old and whose model payload even carries `done = true`.  By the
claim the turn must transition to the off-ramp stage with the binary
continue/stop choice; the code saves the new turn first (so the idle check
compares against it), stays at stage 24 and returns the ordinary
venting-continues response. -/
theorem c5_inactive_turn_counterexample :
    (VentingSanctuary.handle_venting_sanctuary
      { reflection := { current_stage := 24, flow_type := some (.str "venting") },
        messages := [{ sender := 0, message := "earlier", current_stage := some 24,
                       is_distress := false, created_at := 0 }] }
      "..." "r1" "gpt-4o-mini"
      (some [("system_response", .obj [("intent", .str "venting"), ("done", .bool true)]),
             ("user_response", .obj [("message", .str "I'm here with you.")])])
      240
      { prompt := "s2", next_stage := some 3, is_static := true, prompt_type := 0 }
      "" none).1.reflection.current_stage = 24 ∧
    ((VentingSanctuary.handle_venting_sanctuary
      { reflection := { current_stage := 24, flow_type := some (.str "venting") },
        messages := [{ sender := 0, message := "earlier", current_stage := some 24,
                       is_distress := false, created_at := 0 }] }
      "..." "r1" "gpt-4o-mini"
      (some [("system_response", .obj [("intent", .str "venting"), ("done", .bool true)]),
             ("user_response", .obj [("message", .str "I'm here with you.")])])
      240
      { prompt := "s2", next_stage := some 3, is_static := true, prompt_type := 0 }
      "" none).2.map (fun r => r.next_stage)) = some (some 24) ∧
    ((VentingSanctuary.handle_venting_sanctuary
      { reflection := { current_stage := 24, flow_type := some (.str "venting") },
        messages := [{ sender := 0, message := "earlier", current_stage := some 24,
                       is_distress := false, created_at := 0 }] }
      "..." "r1" "gpt-4o-mini"
      (some [("system_response", .obj [("intent", .str "venting"), ("done", .bool true)]),
             ("user_response", .obj [("message", .str "I'm here with you.")])])
      240
      { prompt := "s2", next_stage := some 3, is_static := true, prompt_type := 0 }
      "" none).2.map (fun r => r.data)) = some [[("venting_continues", .bool true)]] :=
  ⟨rfl, rfl, rfl⟩

/-- C5 amended: the venting sanctuary never transitions to the off-ramp on
its own.  On every turn whose system payload does not carry a non-blank,
non-"venting" string intent, the reflection's stage is unchanged and the
turn either returns the ordinary venting-continues response pointing back at
stage 24 — the inactivity branch (which would also stay at stage 24) never
fires, because the turn's own message is saved before the idle check — or,
on a malformed model payload (a truthy non-dict `system_response`, or a
list-valued reply message), aborts with an uncaught exception that the
orchestrator's envelope turns into its fixed generic failure carrying no
stage at all.  The off-ramp (stage 25 with the continue/stop choice) is
reached only through the global-intent stop handler, and no `done` field is
consulted. -/
theorem c5_sanctuary_never_offramps (st : SessionState) (reqMsg rid model : String)
    (llmOutcome : Option JDict) (now : Int)
    (cfg2 : StageCfg) (dynPrompt2 : String) (llmOutcome2 : Option JDict)
    (errData : List JDict)
    (h : ∀ s, JDict.get?
        (systemPayload (LLMClient.process_json_request llmOutcome (.str rid) model))
        "intent" = some (.str s) →
      pyStrip s = "" ∨ pyLower (pyStrip s) = "venting") :
    (VentingSanctuary.handle_venting_sanctuary st reqMsg rid model llmOutcome now
        cfg2 dynPrompt2 llmOutcome2).1.reflection.current_stage =
      st.reflection.current_stage ∧
    (∀ resp, (VentingSanctuary.handle_venting_sanctuary st reqMsg rid model llmOutcome
        now cfg2 dynPrompt2 llmOutcome2).2 = some resp →
      resp.success = true ∧ resp.current_stage = some 24 ∧
      resp.next_stage = some 24 ∧
      resp.data = [[("venting_continues", .bool true)]]) ∧
    ((VentingSanctuary.handle_venting_sanctuary st reqMsg rid model llmOutcome now
        cfg2 dynPrompt2 llmOutcome2).2 = none →
      VentingSanctuary.orchestrate_venting errData
        (VentingSanctuary.handle_venting_sanctuary st reqMsg rid model llmOutcome now
          cfg2 dynPrompt2 llmOutcome2) =
        { success := false,
          sarthi_message := some "An unexpected error occurred.",
          data := errData }) := by
  have htrans : (match JDict.get?
      (systemPayload (LLMClient.process_json_request llmOutcome (.str rid) model))
      "intent" with
    | some (.str s) => pyStrip s ≠ "" && pyLower (pyStrip s) ≠ "venting"
    | _ => false) = false := by
    cases hv : JDict.get?
        (systemPayload (LLMClient.process_json_request llmOutcome (.str rid) model))
        "intent" with
    | none => rfl
    | some v =>
      cases v with
      | str s =>
        rcases h s hv with h' | h' <;> simp [h']
      | null => rfl
      | bool b => rfl
      | num n => rfl
      | arr xs => rfl
      | obj fs => rfl
  simp only [systemPayload] at htrans
  have key : (VentingSanctuary.handle_venting_sanctuary st reqMsg rid model llmOutcome
        now cfg2 dynPrompt2 llmOutcome2).1.reflection.current_stage =
      st.reflection.current_stage ∧
      ((VentingSanctuary.handle_venting_sanctuary st reqMsg rid model llmOutcome now
          cfg2 dynPrompt2 llmOutcome2).2 = none ∨
        ∃ m, (VentingSanctuary.handle_venting_sanctuary st reqMsg rid model llmOutcome
            now cfg2 dynPrompt2 llmOutcome2).2 = some
          { success := true, reflection_id := some rid, sarthi_message := some m,
            current_stage := some 24, next_stage := some 24,
            data := [[("venting_continues", .bool true)]] }) := by
    simp only [VentingSanctuary.handle_venting_sanctuary]
    rw [get_last_user_message_after_save]
    cases hu : JDict.getD (LLMClient.process_json_request llmOutcome (.str rid) model)
        "user_response" (.obj []) with
    | obj ufields =>
      cases hm : JDict.getD ufields "message" (.str "I'm listening.") with
      | str s1 =>
        cases hsr : JDict.getD (LLMClient.process_json_request llmOutcome (.str rid)
            model) "system_response" (.obj []) with
        | obj fields =>
          rw [hsr] at htrans
          cases fields with
          | nil =>
            simp [hu, hm, hsr, JVal.truthy, VentingSanctuary.venting_normal_flow,
              DbHandler.save_message, sub_self]
          | cons kv t =>
            simp only [ne_eq, decide_not] at htrans
            simp [hu, hm, hsr, JVal.truthy, htrans,
              VentingSanctuary.venting_normal_flow,
              DbHandler.save_message, sub_self,
              update_database_with_system_message_stage]
        | null => simp [hu, hm, hsr, JVal.truthy,
            VentingSanctuary.venting_normal_flow,
            DbHandler.save_message, sub_self]
        | bool b =>
          cases b with
          | false => simp [hu, hm, hsr, JVal.truthy,
              VentingSanctuary.venting_normal_flow,
              DbHandler.save_message, sub_self]
          | true => simp [hu, hm, hsr, JVal.truthy, DbHandler.save_message]
        | num n =>
          by_cases hn : n = 0
          · simp [hu, hm, hsr, hn, JVal.truthy,
              VentingSanctuary.venting_normal_flow,
              DbHandler.save_message, sub_self]
          · simp [hu, hm, hsr, hn, JVal.truthy, DbHandler.save_message]
        | str s2 =>
          by_cases hs2 : s2 = ""
          · simp [hu, hm, hsr, hs2, JVal.truthy,
              VentingSanctuary.venting_normal_flow,
              DbHandler.save_message, sub_self]
          · simp [hu, hm, hsr, hs2, JVal.truthy, DbHandler.save_message]
        | arr xs =>
          cases xs with
          | nil => simp [hu, hm, hsr, JVal.truthy,
              VentingSanctuary.venting_normal_flow,
              DbHandler.save_message, sub_self]
          | cons x t => simp [hu, hm, hsr, JVal.truthy, DbHandler.save_message]
      | arr l1 =>
        cases hsr : JDict.getD (LLMClient.process_json_request llmOutcome (.str rid)
            model) "system_response" (.obj []) with
        | obj fields =>
          rw [hsr] at htrans
          cases fields with
          | nil =>
            simp [hu, hm, hsr, JVal.truthy, VentingSanctuary.venting_normal_flow,
              DbHandler.save_message]
          | cons kv t =>
            simp only [ne_eq, decide_not] at htrans
            simp [hu, hm, hsr, JVal.truthy, htrans,
              VentingSanctuary.venting_normal_flow, DbHandler.save_message,
              update_database_with_system_message_stage]
        | null => simp [hu, hm, hsr, JVal.truthy,
            VentingSanctuary.venting_normal_flow, DbHandler.save_message]
        | bool b =>
          cases b with
          | false => simp [hu, hm, hsr, JVal.truthy,
              VentingSanctuary.venting_normal_flow, DbHandler.save_message]
          | true => simp [hu, hm, hsr, JVal.truthy, DbHandler.save_message]
        | num n =>
          by_cases hn : n = 0
          · simp [hu, hm, hsr, hn, JVal.truthy,
              VentingSanctuary.venting_normal_flow, DbHandler.save_message]
          · simp [hu, hm, hsr, hn, JVal.truthy, DbHandler.save_message]
        | str s2 =>
          by_cases hs2 : s2 = ""
          · simp [hu, hm, hsr, hs2, JVal.truthy,
              VentingSanctuary.venting_normal_flow, DbHandler.save_message]
          · simp [hu, hm, hsr, hs2, JVal.truthy, DbHandler.save_message]
        | arr xs =>
          cases xs with
          | nil => simp [hu, hm, hsr, JVal.truthy,
              VentingSanctuary.venting_normal_flow, DbHandler.save_message]
          | cons x t => simp [hu, hm, hsr, JVal.truthy, DbHandler.save_message]
      | null => simp [hu, hm, JVal.truthy, VentingSanctuary.venting_normal_flow,
          DbHandler.save_message, sub_self]
      | bool b => simp [hu, hm, JVal.truthy, VentingSanctuary.venting_normal_flow,
          DbHandler.save_message, sub_self]
      | num n => simp [hu, hm, JVal.truthy, VentingSanctuary.venting_normal_flow,
          DbHandler.save_message, sub_self]
      | obj f2 => simp [hu, hm, JVal.truthy, VentingSanctuary.venting_normal_flow,
          DbHandler.save_message, sub_self]
    | null => simp [hu, JVal.truthy, VentingSanctuary.venting_normal_flow,
        DbHandler.save_message, sub_self]
    | bool b => simp [hu, JVal.truthy, VentingSanctuary.venting_normal_flow,
        DbHandler.save_message, sub_self]
    | num n => simp [hu, JVal.truthy, VentingSanctuary.venting_normal_flow,
        DbHandler.save_message, sub_self]
    | str s0 => simp [hu, JVal.truthy, VentingSanctuary.venting_normal_flow,
        DbHandler.save_message, sub_self]
    | arr l0 => simp [hu, JVal.truthy, VentingSanctuary.venting_normal_flow,
        DbHandler.save_message, sub_self]
  refine ⟨key.1, ?_, ?_⟩
  · intro resp hresp
    rcases key.2 with hk | ⟨m, hk⟩
    · rw [hk] at hresp
      exact absurd hresp (by simp)
    · rw [hk] at hresp
      injection hresp with hresp
      rw [← hresp]
      exact ⟨rfl, rfl, rfl, rfl⟩
  · intro hnone
    unfold VentingSanctuary.orchestrate_venting
    rw [hnone]

/-- Witness for C5 amended at a concrete venting turn (intent "venting"). -/
theorem c5_sanctuary_never_offramps_witness :
    (VentingSanctuary.handle_venting_sanctuary
      { reflection := { current_stage := 24, flow_type := some (.str "venting") },
        messages := [] }
      "still upset" "r1" "gpt-4o-mini"
      (some [("system_response", .obj [("intent", .str "venting")]),
             ("user_response", .obj [("message", .str "I'm listening.")])])
      100
      { prompt := "s2", next_stage := some 3, is_static := true, prompt_type := 0 }
      "" none).1.reflection.current_stage = 24 ∧
    ((VentingSanctuary.handle_venting_sanctuary
      { reflection := { current_stage := 24, flow_type := some (.str "venting") },
        messages := [] }
      "still upset" "r1" "gpt-4o-mini"
      (some [("system_response", .obj [("intent", .str "venting")]),
             ("user_response", .obj [("message", .str "I'm listening.")])])
      100
      { prompt := "s2", next_stage := some 3, is_static := true, prompt_type := 0 }
      "" none).2.map (fun r => r.next_stage)) = some (some 24) := by
  have h := c5_sanctuary_never_offramps
    { reflection := { current_stage := 24, flow_type := some (.str "venting") },
      messages := [] }
    "still upset" "r1" "gpt-4o-mini"
    (some [("system_response", .obj [("intent", .str "venting")]),
           ("user_response", .obj [("message", .str "I'm listening.")])])
    100
    { prompt := "s2", next_stage := some 3, is_static := true, prompt_type := 0 }
    "" none []
    (by intro s hs
        have h1 : some (JVal.str "venting") = some (JVal.str s) := hs
        injection h1 with h2
        injection h2 with h3
        right
        rw [← h3]
        rfl)
  refine ⟨h.1.trans rfl, ?_⟩
  have hsome : (VentingSanctuary.handle_venting_sanctuary
      { reflection := { current_stage := 24, flow_type := some (.str "venting") },
        messages := [] }
      "still upset" "r1" "gpt-4o-mini"
      (some [("system_response", .obj [("intent", .str "venting")]),
             ("user_response", .obj [("message", .str "I'm listening.")])])
      100
      { prompt := "s2", next_stage := some 3, is_static := true, prompt_type := 0 }
      "" none).2 = some
        { success := true, reflection_id := some "r1",
          sarthi_message := some "I'm listening.",
          current_stage := some 24, next_stage := some 24,
          data := [[("venting_continues", .bool true)]] } := rfl
  rw [hsome]
  exact congrArg some (h.2.1 _ hsome).2.2.1

/-! ## C6 — "both" delivery mode -/

/-- C6: with delivery mode "both" (2) and both contacts supplied, the email
and messaging channels are attempted independently — each channel's
recipient-linking write happens whatever the other channel's outcome, a
failed channel is excluded from the success set without aborting the other,
dispatch succeeds (marking `is_delivered = 1` and naming exactly the
channels that succeeded, in the fixed email-then-WhatsApp order) whenever at
least one attempted channel succeeds, and it raises "All delivery methods
failed" (leaving `is_delivered` untouched) only when every attempted
channel fails. -/
theorem c6_both_mode_dispatch (r : Reflection) (rid : String)
    (email phone : JVal) (emailOk whatsOk : Bool)
    (hm : r.delivery_mode = some (.num 2))
    (he : email.truthy = true) (hp : phone.truthy = true) :
    ((emailOk || whatsOk) = true →
      DeliveryService.execute_delivery_with_contact r rid email phone emailOk whatsOk =
        ({ r with receiver_user_id := some (pyStr phone), is_delivered := 1 },
         .ok { reflection_id := rid,
               sarthi_message := "Your message has been sent via " ++
                 String.intercalate " and "
                   ((if emailOk then ["email"] else []) ++
                    (if whatsOk then ["WhatsApp"] else [])) ++
                 " successfully! 📧📱 Now, how are you feeling after completing this reflection?",
               data := [[("summary",
                           ((DeliveryService.get_reflection_summary r).map JVal.str).getD .null),
                         ("delivery_status", .arr
                           (((if emailOk then ["email_sent"] else []) ++
                             (if whatsOk then ["whatsapp_sent"] else [])).map JVal.str)),
                         ("delivery_complete", .bool true),
                         ("feedback_required", .bool true)]] })) ∧
    (emailOk = false → whatsOk = false →
      DeliveryService.execute_delivery_with_contact r rid email phone emailOk whatsOk =
        ({ r with receiver_user_id := some (pyStr phone) },
         .error "All delivery methods failed")) := by
  have hdm : (match r.delivery_mode with
      | some v => if v.truthy then v else JVal.num 0
      | none => JVal.num 0) = JVal.num 2 := by
    rw [hm]; rfl
  constructor
  · intro hok
    cases emailOk <;> cases whatsOk <;>
      simp_all [DeliveryService.execute_delivery_with_contact,
        DeliveryService.execute_delivery_with_contact.finish,
        DeliveryService.deliver_via_email, DeliveryService.deliver_via_whatsapp,
        DeliveryService.pyEqNum, DeliveryService.get_reflection_summary,
        String.intercalate] <;>
      rfl
  · intro he' hw'
    subst he' hw'
    simp_all [DeliveryService.execute_delivery_with_contact,
      DeliveryService.deliver_via_email, DeliveryService.deliver_via_whatsapp,
      DeliveryService.pyEqNum]

/-- Witness for C6: spec §8 Scenario D — email succeeds, WhatsApp fails;
dispatch succeeds naming only email, `is_delivered = 1`. -/
theorem c6_both_mode_dispatch_witness :
    DeliveryService.execute_delivery_with_contact
      { delivery_mode := some (.num 2), summary := some "Dear Maya, ..." }
      "r1" (.str "maya@example.com") (.str "+15550100") true false =
      ({ ({ delivery_mode := some (.num 2), summary := some "Dear Maya, ..." } : Reflection)
          with receiver_user_id := some "+15550100", is_delivered := 1 },
       .ok { reflection_id := "r1",
             sarthi_message := "Your message has been sent via email successfully! 📧📱 Now, how are you feeling after completing this reflection?",
             data := [[("summary", .str "Dear Maya, ..."),
                       ("delivery_status", .arr [.str "email_sent"]),
                       ("delivery_complete", .bool true),
                       ("feedback_required", .bool true)]] }) := by
  have h := (c6_both_mode_dispatch
    { delivery_mode := some (.num 2), summary := some "Dear Maya, ..." }
    "r1" (.str "maya@example.com") (.str "+15550100") true false
    rfl rfl rfl).1 rfl
  simpa [DeliveryService.get_reflection_summary, String.intercalate] using h

/-! ## C8 — channel decision with missing contact -/

/-- C8: on a channel-decision turn (a stage-27 choice carrying
`delivery_mode`), if the selected mode requires a contact value that is
missing or empty — email for modes 0/2, phone for modes 1/2 — the handler
returns a validation failure (`success = false` with the corresponding
requirement message, staying at stage 27) and performs no partial commit:
the session state, including `delivery_mode` and `is_delivered`, is
returned exactly as it was. -/
theorem c8_missing_contact_no_mutation (st : SessionState) (rid : String)
    (user_choice : JDict) (userName : Option String)
    (emailOk whatsOk thirdOk : Bool)
    (hr : JDict.hasKey user_choice "reveal_name" = false)
    (hn : JDict.hasKey user_choice "name" = false)
    (hd : JDict.hasKey user_choice "delivery_mode" = true)
    (hmiss :
      ((DeliveryService.pyEqNum (JDict.getD user_choice "delivery_mode" .null) 0 ||
        DeliveryService.pyEqNum (JDict.getD user_choice "delivery_mode" .null) 2) &&
        !(JDict.getD user_choice "recipient_email" .null).truthy) = true ∨
      ((DeliveryService.pyEqNum (JDict.getD user_choice "delivery_mode" .null) 1 ||
        DeliveryService.pyEqNum (JDict.getD user_choice "delivery_mode" .null) 2) &&
        !(JDict.getD user_choice "recipient_phone" .null).truthy) = true) :
    (NormalFlow.handle_stage27_choice st rid user_choice userName
        emailOk whatsOk thirdOk).1 = st ∧
    (NormalFlow.handle_stage27_choice st rid user_choice userName
        emailOk whatsOk thirdOk).2.success = false ∧
    ((NormalFlow.handle_stage27_choice st rid user_choice userName
        emailOk whatsOk thirdOk).2.sarthi_message =
          some "Email address is required for email delivery." ∨
     (NormalFlow.handle_stage27_choice st rid user_choice userName
        emailOk whatsOk thirdOk).2.sarthi_message =
          some "Phone number is required for WhatsApp delivery.") ∧
    (NormalFlow.handle_stage27_choice st rid user_choice userName
        emailOk whatsOk thirdOk).2.current_stage = some 27 ∧
    (NormalFlow.handle_stage27_choice st rid user_choice userName
        emailOk whatsOk thirdOk).2.next_stage = some 27 := by
  by_cases hc1 :
      ((DeliveryService.pyEqNum (JDict.getD user_choice "delivery_mode" .null) 0 ||
        DeliveryService.pyEqNum (JDict.getD user_choice "delivery_mode" .null) 2) &&
        !(JDict.getD user_choice "recipient_email" .null).truthy) = true
  · simp [NormalFlow.handle_stage27_choice, hr, hn, hd, hc1]
  · have hc2 :
        ((DeliveryService.pyEqNum (JDict.getD user_choice "delivery_mode" .null) 1 ||
          DeliveryService.pyEqNum (JDict.getD user_choice "delivery_mode" .null) 2) &&
          !(JDict.getD user_choice "recipient_phone" .null).truthy) = true := by
      rcases hmiss with h | h
      · exact absurd h hc1
      · exact h
    simp [NormalFlow.handle_stage27_choice, hr, hn, hd, hc1, hc2]

/-- Witness for C8: mode "both" with an email but no phone number — the
request fails with the phone validation message and the state is unchanged. -/
theorem c8_missing_contact_no_mutation_witness :
    (NormalFlow.handle_stage27_choice
      { reflection := { current_stage := 27, summary := some "Dear Maya, ..." },
        messages := [] }
      "r1"
      [("delivery_mode", .num 2), ("recipient_email", .str "maya@example.com")]
      (some "Sam") true true true).1 =
      { reflection := { current_stage := 27, summary := some "Dear Maya, ..." },
        messages := [] } ∧
    (NormalFlow.handle_stage27_choice
      { reflection := { current_stage := 27, summary := some "Dear Maya, ..." },
        messages := [] }
      "r1"
      [("delivery_mode", .num 2), ("recipient_email", .str "maya@example.com")]
      (some "Sam") true true true).2.success = false := by
  have h := c8_missing_contact_no_mutation
    { reflection := { current_stage := 27, summary := some "Dear Maya, ..." },
      messages := [] }
    "r1"
    [("delivery_mode", .num 2), ("recipient_email", .str "maya@example.com")]
    (some "Sam") true true true
    rfl rfl rfl (Or.inr rfl)
  exact ⟨h.1, h.2.1⟩

/-! ## C10 — template resolution -/

namespace TemplateProcessor

theorem render_nil : render [] = [] := rfl

theorem render_cons (s : Seg) (L : List Seg) :
    render (s :: L) = s.render ++ render L := by
  simp [render]

theorem wordChar_ne_left_brace {c : Char} (h : wordChar c = true) :
    (c == '{') = false := by
  by_cases hc : c = '{'
  · subst hc; exact absurd h (by decide)
  · simpa using hc

theorem wordChar_ne_right_brace {c : Char} (h : wordChar c = true) :
    (c == '}') = false := by
  by_cases hc : c = '}'
  · subst hc; exact absurd h (by decide)
  · simpa using hc

theorem takeWhile_word_append (v : List Char) (x : Char) (s : List Char)
    (hv : v.all wordChar = true) (hx : wordChar x = false) :
    (v ++ x :: s).takeWhile wordChar = v := by
  induction v with
  | nil => simp [List.takeWhile_cons, hx]
  | cons c v ih =>
    simp only [List.all_cons, Bool.and_eq_true] at hv
    simp [List.takeWhile_cons, hv.1, ih hv.2]

end TemplateProcessor

namespace TemplateProcessor

theorem findSingle_append_nonbrace (u s : List Char)
    (hu : ∀ c ∈ u, (c == '{') = false) :
    findSingle (u ++ s) = findSingle s := by
  induction u with
  | nil => rfl
  | cons c u ih =>
    have hc := hu c (List.mem_cons_self c u)
    rw [List.cons_append, findSingle]
    simp only [hc, Bool.false_eq_true, if_false]
    exact ih (fun c' hc' => hu c' (List.mem_cons_of_mem _ hc'))

theorem findDouble_append_nonbrace (u s : List Char)
    (hu : ∀ c ∈ u, (c == '{') = false) :
    findDouble (u ++ s) = findDouble s := by
  induction u with
  | nil => rfl
  | cons c u ih =>
    have hc := hu c (List.mem_cons_self c u)
    rw [List.cons_append, findDouble.eq_def]
    simp only [hc, Bool.false_eq_true, if_false]
    exact ih (fun c' hc' => hu c' (List.mem_cons_of_mem _ hc'))

/-- Characters of a well-formed placeholder body never open a brace. -/
theorem word_append_brace_nonbrace (v : List Char) (hv : v.all wordChar = true)
    (tail : List Char) (htail : ∀ c ∈ tail, (c == '{') = false) :
    ∀ c ∈ v ++ tail, (c == '{') = false := by
  intro c hc
  rcases List.mem_append.mp hc with h | h
  · exact wordChar_ne_left_brace (List.all_eq_true.mp hv c h)
  · exact htail c h

theorem findDouble_render (L : List Seg) (h : wfTemplate L = true) :
    findDouble (render L) = dvarNames L := by
  induction L with
  | nil =>
    rw [show render [] = [] from rfl, findDouble.eq_def]
    rfl
  | cons s L ih =>
    simp only [wfTemplate, List.all_cons, Bool.and_eq_true] at h
    have ihL := ih h.2
    rw [render_cons]
    cases s with
    | lit c =>
      have hc : (c == '{') = false := by
        have := h.1
        simp only [Seg.wf, Bool.and_eq_true] at this
        simpa using this.1
      rw [show Seg.render (.lit c) = [c] from rfl, List.cons_append, findDouble.eq_def]
      simpa [hc, dvarNames] using ihL
    | svar v =>
      have hwf := h.1
      simp only [Seg.wf, Bool.and_eq_true] at hwf
      obtain ⟨hne, hword⟩ := hwf
      cases hv : v.toList with
      | nil => rw [hv] at hne; simp at hne
      | cons v0 vt =>
        have hword' : (v0 :: vt).all wordChar = true := hv ▸ hword
        have hv0 : (v0 == '{') = false := by
          exact wordChar_ne_left_brace (List.all_eq_true.mp hword' v0
            (List.mem_cons_self v0 vt))
        rw [show Seg.render (.svar v) = '{' :: (v.toList ++ ['}']) from rfl, hv]
        rw [List.cons_append, findDouble.eq_def]
        simp only [beq_self_eq_true, if_true, List.cons_append, hv0,
          Bool.false_eq_true, if_false]
        have hskip : ∀ c ∈ (v0 :: vt) ++ ['}'], (c == '{') = false := by
          refine word_append_brace_nonbrace (v0 :: vt) hword' ['}'] ?_
          intro c hc
          simp only [List.mem_singleton] at hc
          subst hc; decide
        rw [show v0 :: (vt ++ ['}'] ++ render L) =
            ((v0 :: vt) ++ ['}']) ++ render L from by simp]
        rw [findDouble_append_nonbrace _ _ hskip, ihL]
        rfl
    | dvar v =>
      have hwf := h.1
      simp only [Seg.wf, Bool.and_eq_true] at hwf
      obtain ⟨hne, hword⟩ := hwf
      rw [show Seg.render (.dvar v) = '{' :: '{' :: (v.toList ++ ['}', '}']) from rfl]
      rw [List.cons_append, List.cons_append, findDouble.eq_def]
      simp only [beq_self_eq_true, if_true]
      have hX : v.toList ++ ['}', '}'] ++ render L =
          v.toList ++ '}' :: ('}' :: render L) := by simp
      rw [hX, takeWhile_word_append v.toList '}' ('}' :: render L) hword (by decide)]
      have hne' : v.toList.isEmpty = false := by
        cases hvl : v.toList
        · rw [hvl] at hne; simp at hne
        · rfl
      rw [List.drop_left]
      simp only [hne', Bool.not_false, List.take_cons, List.take_nil, beq_self_eq_true,
        Bool.true_and, if_true]
      have hdrop : (v.toList ++ '}' :: ('}' :: render L)).drop (v.toList.length + 2) =
          render L := List.drop_append 2
      rw [hdrop]
      have hmk : String.mk v.toList = v := rfl
      rw [hmk, ihL]
      rfl

end TemplateProcessor

namespace TemplateProcessor

theorem findSingle_render (L : List Seg) (h : wfTemplate L = true) :
    findSingle (render L) = svarNames L := by
  induction L with
  | nil =>
    rw [show render [] = [] from rfl, findSingle.eq_def]
    rfl
  | cons s L ih =>
    simp only [wfTemplate, List.all_cons, Bool.and_eq_true] at h
    have ihL := ih h.2
    rw [render_cons]
    cases s with
    | lit c =>
      have hc : (c == '{') = false := by
        have := h.1
        simp only [Seg.wf, Bool.and_eq_true] at this
        simpa using this.1
      rw [show Seg.render (.lit c) = [c] from rfl, List.cons_append, findSingle]
      simp only [hc, Bool.false_eq_true, if_false, List.nil_append]
      rw [ihL]
      rfl
    | svar v =>
      have hwf := h.1
      simp only [Seg.wf, Bool.and_eq_true] at hwf
      obtain ⟨hne, hword⟩ := hwf
      have hne' : v.toList.isEmpty = false := by
        cases hvl : v.toList
        · rw [hvl] at hne; simp at hne
        · rfl
      rw [show Seg.render (.svar v) = '{' :: (v.toList ++ ['}']) from rfl]
      rw [List.cons_append, findSingle]
      have hX : v.toList ++ ['}'] ++ render L = v.toList ++ '}' :: render L := by simp
      rw [hX, takeWhile_word_append v.toList '}' (render L) hword (by decide)]
      simp only [hne', Bool.not_false, List.drop_left, List.head?_cons,
        beq_self_eq_true, Bool.true_and, if_true]
      rw [show (v.toList ++ '}' :: render L).drop (v.toList.length + 1) =
          render L from List.drop_append 1]
      rw [ihL]
      rfl
    | dvar v =>
      have hwf := h.1
      simp only [Seg.wf, Bool.and_eq_true] at hwf
      obtain ⟨hne, hword⟩ := hwf
      have hne' : v.toList.isEmpty = false := by
        cases hvl : v.toList
        · rw [hvl] at hne; simp at hne
        · rfl
      rw [show Seg.render (.dvar v) = '{' :: '{' :: (v.toList ++ ['}', '}']) from rfl]
      rw [List.cons_append, List.cons_append, findSingle]
      rw [show List.takeWhile wordChar ('{' :: (v.toList ++ ['}', '}'] ++ render L)) =
          [] from by
            rw [List.takeWhile_cons]
            simp [show wordChar '{' = false from by decide]]
      simp only [List.isEmpty_nil, Bool.not_true, Bool.false_and,
        Bool.false_eq_true, if_false]
      rw [findSingle]
      have hX : v.toList ++ ['}', '}'] ++ render L =
          v.toList ++ '}' :: ('}' :: render L) := by simp
      rw [hX, takeWhile_word_append v.toList '}' ('}' :: render L) hword (by decide)]
      simp only [hne', Bool.not_false, List.drop_left, List.head?_cons,
        beq_self_eq_true, Bool.true_and, if_true]
      rw [show (v.toList ++ '}' :: ('}' :: render L)).drop (v.toList.length + 1) =
          '}' :: render L from List.drop_append 1]
      rw [findSingle]
      simp only [show (('}' : Char) == '{') = false from by decide,
        Bool.false_eq_true, if_false]
      rw [ihL]
      rfl

end TemplateProcessor

namespace TemplateProcessor

theorem isPrefixOf_append_self (a b : List Char) : a.isPrefixOf (a ++ b) = true := by
  induction a with
  | nil => simp [List.isPrefixOf]
  | cons c a ih => simpa [List.isPrefixOf] using ih

theorem render_lit_run (val : List Char) : render (val.map Seg.lit) = val := by
  induction val with
  | nil => rfl
  | cons c val ih => simpa [render, Seg.render] using ih

/-- A brace-closed word token is a prefix of another word-headed context
exactly when the words agree. -/
theorem token_prefix_iff (a : List Char) (y : List Char) (b x : List Char)
    (ha : a.all wordChar = true) (hb : b.all wordChar = true) :
    ((a ++ '}' :: y).isPrefixOf (b ++ '}' :: x)) =
      ((a == b) && y.isPrefixOf x) := by
  induction a generalizing b with
  | nil =>
    cases b with
    | nil => simp [List.isPrefixOf]
    | cons d b' =>
      have hd : wordChar d = true := by
        simp only [List.all_cons, Bool.and_eq_true] at hb
        exact hb.1
      have : (('}' : Char) == d) = false := by
        have hne := wordChar_ne_right_brace hd
        by_cases hdd : d = '}'
        · subst hdd; simp at hne
        · simpa using fun hcontra => hdd hcontra.symm
      simp [List.isPrefixOf, this]
  | cons c a' ih =>
    cases b with
    | nil =>
      have hc : wordChar c = true := by
        simp only [List.all_cons, Bool.and_eq_true] at ha
        exact ha.1
      simp [List.isPrefixOf, wordChar_ne_right_brace hc]
    | cons d b' =>
      have ha' : a'.all wordChar = true := by
        simp only [List.all_cons, Bool.and_eq_true] at ha
        exact ha.2
      have hb' : b'.all wordChar = true := by
        simp only [List.all_cons, Bool.and_eq_true] at hb
        exact hb.2
      have hcons : ((c :: a' : List Char) == d :: b') = ((c == d) && (a' == b')) := rfl
      simp only [List.cons_append, List.isPrefixOf, List.append_eq,
        ih b' ha' hb', hcons, Bool.and_assoc]

theorem replaceSub_append_nonbrace (o new u s : List Char)
    (hu : ∀ c ∈ u, (c == '{') = false) :
    replaceSub ('{' :: o) new (u ++ s) = u ++ replaceSub ('{' :: o) new s := by
  induction u with
  | nil => rfl
  | cons c u ih =>
    have hc := hu c (List.mem_cons_self c u)
    have hcc : (('{' : Char) == c) = false := by
      by_cases hd : c = '{'
      · subst hd; simp at hc
      · simpa using fun hcontra => hd hcontra.symm
    rw [List.cons_append, replaceSub]
    rw [dif_neg (by
      intro hcontra
      have := hcontra.2
      simp [List.isPrefixOf, hcc] at this)]
    rw [ih (fun c' hc' => hu c' (List.mem_cons_of_mem _ hc'))]
    rfl

end TemplateProcessor

namespace TemplateProcessor

theorem render_append (A B : List Seg) : render (A ++ B) = render A ++ render B := by
  simp [render]

theorem string_mk_toList (s : String) : String.mk s.toList = s := rfl

theorem toList_ne_of_ne {v w : String} (h : w ≠ v) : w.toList ≠ v.toList :=
  fun he => h (by rw [← string_mk_toList w, ← string_mk_toList v, he])

theorem replaceSub_dvar_render (v : String) (val : List Char) (L : List Seg)
    (hL : wfTemplate L = true)
    (hv : v.toList.all wordChar = true)
    (hval : ∀ c ∈ val, (c == '{') = false) :
    replaceSub ('{' :: '{' :: (v.toList ++ ['}', '}'])) val (render L) =
      render (replaceDvar v val L) := by
  induction L with
  | nil =>
    rw [show render [] = [] from rfl, replaceSub]
    rfl
  | cons s L ih =>
    simp only [wfTemplate, List.all_cons, Bool.and_eq_true] at hL
    have ihL := ih hL.2
    rw [render_cons]
    cases s with
    | lit c =>
      have hwfc := hL.1
      simp only [Seg.wf, Bool.and_eq_true] at hwfc
      have hc : (('{' : Char) == c) = false := by
        by_cases hd : c = '{'
        · subst hd; simp at hwfc
        · simpa using fun hcontra => hd hcontra.symm
      rw [show Seg.render (.lit c) = [c] from rfl, List.cons_append, replaceSub]
      rw [dif_neg (by
        intro hcontra
        have := hcontra.2
        simp [List.isPrefixOf, hc] at this)]
      simp only [List.nil_append]
      rw [ihL]
      rfl
    | svar w =>
      have hwf := hL.1
      simp only [Seg.wf, Bool.and_eq_true] at hwf
      obtain ⟨hne, hword⟩ := hwf
      cases hwl : w.toList with
      | nil => rw [hwl] at hne; simp at hne
      | cons w0 wt =>
        have hword' : (w0 :: wt).all wordChar = true := hwl ▸ hword
        have hw0 : (('{' : Char) == w0) = false := by
          have := wordChar_ne_left_brace
            (List.all_eq_true.mp hword' w0 (List.mem_cons_self w0 wt))
          by_cases hd : w0 = '{'
          · subst hd; simp at this
          · simpa using fun hcontra => hd hcontra.symm
        rw [show Seg.render (.svar w) = '{' :: (w.toList ++ ['}']) from rfl, hwl]
        rw [List.cons_append, replaceSub]
        rw [dif_neg (by
          intro hcontra
          have := hcontra.2
          simp [List.isPrefixOf, hw0] at this)]
        have hshape : (w0 :: wt) ++ ['}'] ++ render L =
            ((w0 :: wt) ++ ['}']) ++ render L := by simp
        have hskip : ∀ c ∈ (w0 :: wt) ++ ['}'], (c == '{') = false := by
          refine word_append_brace_nonbrace (w0 :: wt) hword' ['}'] ?_
          intro c hc
          simp only [List.mem_singleton] at hc
          subst hc; decide
        rw [show w0 :: wt ++ ['}'] ++ render L =
            ((w0 :: wt) ++ ['}']) ++ render L from by simp]
        rw [replaceSub_append_nonbrace _ _ _ _ hskip, ihL]
        have hwl' : w.data = w0 :: wt := hwl
        simp [replaceDvar, render_cons, Seg.render, hwl']
    | dvar w =>
      have hwf := hL.1
      simp only [Seg.wf, Bool.and_eq_true] at hwf
      obtain ⟨hne, hword⟩ := hwf
      by_cases hwv : w = v
      · subst hwv
        have hfull : Seg.render (.dvar w) ++ render L =
            ('{' :: '{' :: (w.toList ++ ['}', '}'])) ++ render L := rfl
        rw [hfull, show ('{' :: '{' :: (w.toList ++ ['}', '}'])) ++ render L =
            '{' :: ('{' :: (w.toList ++ ['}', '}']) ++ render L) from by simp]
        rw [replaceSub]
        rw [dif_pos (by
          constructor
          · simp
          · exact isPrefixOf_append_self _ _)]
        rw [show ('{' :: ('{' :: (w.toList ++ ['}', '}']) ++ render L)).drop
            ('{' :: '{' :: (w.toList ++ ['}', '}'])).length = render L from by
          rw [show ('{' :: ('{' :: (w.toList ++ ['}', '}']) ++ render L)) =
              ('{' :: '{' :: (w.toList ++ ['}', '}'])) ++ render L from by simp]
          exact List.drop_left _ _]
        rw [ihL]
        rw [show replaceDvar w val (Seg.dvar w :: L) =
            (val.map Seg.lit) ++ replaceDvar w val L from by simp [replaceDvar]]
        rw [render_append, render_lit_run]
      · cases hwl : w.toList with
        | nil => rw [hwl] at hne; simp at hne
        | cons w0 wt =>
          have hword' : (w0 :: wt).all wordChar = true := hwl ▸ hword
          have hw0 : (('{' : Char) == w0) = false := by
            have := wordChar_ne_left_brace
              (List.all_eq_true.mp hword' w0 (List.mem_cons_self w0 wt))
            by_cases hd : w0 = '{'
            · subst hd; simp at this
            · simpa using fun hcontra => hd hcontra.symm
          have hbeq : (v.toList == w.toList) = false :=
            beq_eq_false_iff_ne.mpr (Ne.symm (toList_ne_of_ne hwv))
          rw [show Seg.render (.dvar w) = '{' :: '{' :: (w.toList ++ ['}', '}'])
            from rfl]
          rw [List.cons_append, replaceSub]
          rw [dif_neg (by
            intro hcontra
            have hpre := hcontra.2
            rw [show ('{' :: (w.toList ++ ['}', '}'])) ++ render L =
                '{' :: (w.toList ++ '}' :: ('}' :: render L)) from by simp] at hpre
            simp only [List.isPrefixOf, beq_self_eq_true, Bool.true_and] at hpre
            rw [show v.toList ++ ['}', '}'] = v.toList ++ '}' :: ['}'] from by simp,
              token_prefix_iff v.toList ['}'] w.toList ('}' :: render L) hv hword]
              at hpre
            rw [hbeq] at hpre
            simp at hpre)]
          rw [show ('{' :: (w.toList ++ ['}', '}'])) ++ render L =
              '{' :: (w.toList ++ ['}', '}'] ++ render L) from by simp]
          rw [replaceSub]
          rw [dif_neg (by
            intro hcontra
            have hpre := hcontra.2
            rw [hwl] at hpre
            simp [List.isPrefixOf, hw0] at hpre)]
          have hskip : ∀ c ∈ w.toList ++ ['}', '}'], (c == '{') = false := by
            refine word_append_brace_nonbrace w.toList hword ['}', '}'] ?_
            intro c hc
            have hc' : c = '}' := by simpa using hc
            subst hc'; decide
          rw [show w.toList ++ ['}', '}'] ++ render L =
              (w.toList ++ ['}', '}']) ++ render L from by simp]
          rw [replaceSub_append_nonbrace _ _ _ _ hskip, ihL]
          simp [replaceDvar, render_cons, Seg.render, hwv]

end TemplateProcessor

namespace TemplateProcessor

theorem replaceSub_svar_render (v : String) (val : List Char) (L : List Seg)
    (hL : wfTemplate L = true) (hnd : dvarFree L = true)
    (hv : v.toList.all wordChar = true) :
    replaceSub ('{' :: (v.toList ++ ['}'])) val (render L) =
      render (replaceSvar v val L) := by
  induction L with
  | nil =>
    rw [show render [] = [] from rfl, replaceSub]
    rfl
  | cons s L ih =>
    simp only [wfTemplate, List.all_cons, Bool.and_eq_true] at hL
    simp only [dvarFree, List.all_cons, Bool.and_eq_true] at hnd
    have ihL := ih hL.2 (by simp [dvarFree, hnd.2])
    rw [render_cons]
    cases s with
    | lit c =>
      have hwfc := hL.1
      simp only [Seg.wf, Bool.and_eq_true] at hwfc
      have hc : (('{' : Char) == c) = false := by
        by_cases hd : c = '{'
        · subst hd; simp at hwfc
        · simpa using fun hcontra => hd hcontra.symm
      rw [show Seg.render (.lit c) = [c] from rfl, List.cons_append, replaceSub]
      rw [dif_neg (by
        intro hcontra
        have := hcontra.2
        simp [List.isPrefixOf, hc] at this)]
      simp only [List.nil_append]
      rw [ihL]
      rfl
    | svar w =>
      have hwf := hL.1
      simp only [Seg.wf, Bool.and_eq_true] at hwf
      obtain ⟨hne, hword⟩ := hwf
      by_cases hwv : w = v
      · subst hwv
        have hfull : Seg.render (.svar w) ++ render L =
            ('{' :: (w.toList ++ ['}'])) ++ render L := rfl
        rw [hfull, show ('{' :: (w.toList ++ ['}'])) ++ render L =
            '{' :: ((w.toList ++ ['}']) ++ render L) from by simp]
        rw [replaceSub]
        rw [dif_pos (by
          constructor
          · simp
          · exact isPrefixOf_append_self _ _)]
        rw [show ('{' :: ((w.toList ++ ['}']) ++ render L)).drop
            ('{' :: (w.toList ++ ['}'])).length = render L from by
          rw [show ('{' :: ((w.toList ++ ['}']) ++ render L)) =
              ('{' :: (w.toList ++ ['}'])) ++ render L from by simp]
          exact List.drop_left _ _]
        rw [ihL]
        rw [show replaceSvar w val (Seg.svar w :: L) =
            (val.map Seg.lit) ++ replaceSvar w val L from by simp [replaceSvar]]
        rw [render_append, render_lit_run]
      · have hbeq : (v.toList == w.toList) = false :=
          beq_eq_false_iff_ne.mpr (Ne.symm (toList_ne_of_ne hwv))
        cases hwl : w.toList with
        | nil => rw [hwl] at hne; simp at hne
        | cons w0 wt =>
          have hword' : (w0 :: wt).all wordChar = true := hwl ▸ hword
          rw [show Seg.render (.svar w) = '{' :: (w.toList ++ ['}']) from rfl]
          rw [List.cons_append, replaceSub]
          rw [dif_neg (by
            intro hcontra
            have hpre := hcontra.2
            rw [show (w.toList ++ ['}']) ++ render L =
                w.toList ++ '}' :: render L from by simp] at hpre
            simp only [List.isPrefixOf, beq_self_eq_true, Bool.true_and] at hpre
            rw [show v.toList ++ ['}'] = v.toList ++ '}' :: ([] : List Char)
                from by simp,
              token_prefix_iff v.toList [] w.toList (render L) hv hword] at hpre
            rw [hbeq] at hpre
            simp at hpre)]
          have hskip : ∀ c ∈ w.toList ++ ['}'], (c == '{') = false := by
            refine word_append_brace_nonbrace w.toList hword ['}'] ?_
            intro c hc
            have hc' : c = '}' := by simpa using hc
            subst hc'; decide
          rw [show (w.toList ++ ['}']) ++ render L =
              (w.toList ++ ['}']) ++ render L from rfl]
          rw [replaceSub_append_nonbrace _ _ _ _ hskip, ihL]
          have hwl' : w.data = w0 :: wt := hwl
          simp [replaceSvar, render_cons, Seg.render, hwv, hwl']
    | dvar w =>
      simp [Seg.wf] at hnd

end TemplateProcessor

namespace JDict

theorem get?_eq_none_of_not_hasKey (d : JDict) (k : String)
    (h : hasKey d k = false) : get? d k = none := by
  induction d with
  | nil => rfl
  | cons kv t ih =>
    simp only [hasKey, List.any_cons, Bool.or_eq_false_iff] at h
    simp only [get?, List.find?, h.1]
    exact ih (by simp [hasKey, h.2])

theorem hasKey_set_self (d : JDict) (k : String) (v : JVal) :
    hasKey (set d k v) k = true := by
  induction d with
  | nil => simp [set, hasKey]
  | cons kv t ih =>
    by_cases h : kv.1 = k
    · simp [set, h, hasKey]
    · simp only [set, beq_iff_eq, h, if_false]
      simp only [hasKey, List.any_cons, Bool.or_eq_true]
      right
      simpa [hasKey] using ih

theorem hasKey_set_mono (d : JDict) (k k' : String) (v : JVal)
    (h : hasKey d k = true) : hasKey (set d k' v) k = true := by
  induction d with
  | nil => simp [hasKey] at h
  | cons kv t ih =>
    simp only [hasKey, List.any_cons, Bool.or_eq_true] at h
    by_cases hk : kv.1 = k'
    · simp only [set, beq_iff_eq, hk, if_true]
      simp only [hasKey, List.any_cons, Bool.or_eq_true]
      rcases h with h | h
      · left
        rw [show k' = kv.1 from hk.symm]
        exact h
      · right
        exact h
    · simp only [set, beq_iff_eq, hk, if_false]
      simp only [hasKey, List.any_cons, Bool.or_eq_true]
      rcases h with h | h
      · left
        exact h
      · right
        have := ih (by simpa [hasKey] using h)
        simpa [hasKey] using this

end JDict

namespace TemplateProcessor

theorem hasKey_fillMissing_mono (d : JDict) (vars : List String) (k : String)
    (h : JDict.hasKey d k = true) :
    JDict.hasKey (fillMissing d vars) k = true := by
  induction vars generalizing d with
  | nil => exact h
  | cons u vars ih =>
    show JDict.hasKey (fillMissing
      (if JDict.hasKey d u then d else JDict.set d u (.str "")) vars) k = true
    by_cases hu : JDict.hasKey d u = true
    · simp only [hu, if_true]
      exact ih d h
    · simp only [hu, Bool.false_eq_true, if_false]
      exact ih _ (JDict.hasKey_set_mono d k u (.str "") h)

theorem hasKey_fillMissing_of_mem (d : JDict) (vars : List String) (v : String)
    (h : v ∈ vars) : JDict.hasKey (fillMissing d vars) v = true := by
  induction vars generalizing d with
  | nil => simp at h
  | cons u vars ih =>
    show JDict.hasKey (fillMissing
      (if JDict.hasKey d u then d else JDict.set d u (.str "")) vars) v = true
    rcases List.mem_cons.mp h with hv | hv
    · subst hv
      by_cases hu : JDict.hasKey d v = true
      · simp only [hu, if_true]
        exact hasKey_fillMissing_mono d vars v hu
      · simp only [hu, Bool.false_eq_true, if_false]
        exact hasKey_fillMissing_mono _ vars v (JDict.hasKey_set_self d v (.str ""))
    · by_cases hu : JDict.hasKey d u = true
      · simp only [hu, if_true]
        exact ih d hv
      · simp only [hu, Bool.false_eq_true, if_false]
        exact ih _ hv

theorem valueStr_fillMissing (d : JDict) (vars : List String) (v : String) :
    valueStr (fillMissing d vars) v = resolvedValue d v := by
  induction vars generalizing d with
  | nil => rfl
  | cons u vars ih =>
    show valueStr (fillMissing
      (if JDict.hasKey d u then d else JDict.set d u (.str "")) vars) v =
      resolvedValue d v
    by_cases hu : JDict.hasKey d u = true
    · simp only [hu, if_true]
      exact ih d
    · simp only [hu, Bool.false_eq_true, if_false]
      rw [ih (JDict.set d u (.str ""))]
      by_cases hv : v = u
      · subst hv
        simp only [resolvedValue, JDict.get?_set_self,
          JDict.get?_eq_none_of_not_hasKey d v (by simpa using hu)]
        rfl
      · simp only [resolvedValue, JDict.get?_set_ne d v u (.str "")
          (fun he => hv he.symm)]

end TemplateProcessor

namespace TemplateProcessor

theorem substDvarsAll_of_no_dvars (value : String → List Char) (L : List Seg)
    (h : dvarNames L = []) : substDvarsAll value L = L := by
  induction L with
  | nil => rfl
  | cons s L ih =>
    cases s with
    | lit c => simpa [substDvarsAll, dvarNames] using ih (by simpa [dvarNames] using h)
    | svar v => simpa [substDvarsAll, dvarNames] using ih (by simpa [dvarNames] using h)
    | dvar v => simp [dvarNames] at h

theorem substSvarsAll_of_no_svars (value : String → List Char) (L : List Seg)
    (h : svarNames L = []) : substSvarsAll value L = L := by
  induction L with
  | nil => rfl
  | cons s L ih =>
    cases s with
    | lit c => simpa [substSvarsAll, svarNames] using ih (by simpa [svarNames] using h)
    | svar v => simp [svarNames] at h
    | dvar v => simp [svarNames] at h

theorem wf_lit_run (val : List Char)
    (hval : ∀ c ∈ val, (c != '{' && c != '}') = true) :
    (val.map Seg.lit).all Seg.wf = true := by
  induction val with
  | nil => rfl
  | cons c val ih =>
    simp only [List.map_cons, List.all_cons, Bool.and_eq_true]
    exact ⟨hval c (List.mem_cons_self c val),
      ih (fun c' hc' => hval c' (List.mem_cons_of_mem _ hc'))⟩

theorem wf_replaceDvar (v : String) (val : List Char) (L : List Seg)
    (hL : wfTemplate L = true)
    (hval : ∀ c ∈ val, (c != '{' && c != '}') = true) :
    wfTemplate (replaceDvar v val L) = true := by
  induction L with
  | nil => rfl
  | cons s L ih =>
    simp only [wfTemplate, List.all_cons, Bool.and_eq_true] at hL
    have ihL := ih hL.2
    cases s with
    | lit c => simpa [replaceDvar, wfTemplate, hL.1] using ihL
    | svar w => simpa [replaceDvar, wfTemplate, hL.1] using ihL
    | dvar w =>
      by_cases hwv : w = v
      · simp only [replaceDvar, hwv, if_true]
        simp only [wfTemplate, List.all_append, Bool.and_eq_true]
        exact ⟨wf_lit_run val hval, ihL⟩
      · simp only [replaceDvar, hwv, if_false]
        simpa [wfTemplate, hL.1] using ihL

theorem wf_replaceSvar (v : String) (val : List Char) (L : List Seg)
    (hL : wfTemplate L = true)
    (hval : ∀ c ∈ val, (c != '{' && c != '}') = true) :
    wfTemplate (replaceSvar v val L) = true := by
  induction L with
  | nil => rfl
  | cons s L ih =>
    simp only [wfTemplate, List.all_cons, Bool.and_eq_true] at hL
    have ihL := ih hL.2
    cases s with
    | lit c => simpa [replaceSvar, wfTemplate, hL.1] using ihL
    | dvar w => simpa [replaceSvar, wfTemplate, hL.1] using ihL
    | svar w =>
      by_cases hwv : w = v
      · simp only [replaceSvar, hwv, if_true]
        simp only [wfTemplate, List.all_append, Bool.and_eq_true]
        exact ⟨wf_lit_run val hval, ihL⟩
      · simp only [replaceSvar, hwv, if_false]
        simpa [wfTemplate, hL.1] using ihL

theorem dvarNames_lit_append (cs : List Char) (M : List Seg) :
    dvarNames (cs.map Seg.lit ++ M) = dvarNames M := by
  induction cs with
  | nil => rfl
  | cons c cs ih => simpa [dvarNames] using ih

theorem svarNames_lit_append (cs : List Char) (M : List Seg) :
    svarNames (cs.map Seg.lit ++ M) = svarNames M := by
  induction cs with
  | nil => rfl
  | cons c cs ih => simpa [svarNames] using ih

theorem dvarNames_replaceDvar_mem (v : String) (val : List Char) (L : List Seg)
    (u : String) (h : u ∈ dvarNames (replaceDvar v val L)) :
    u ∈ dvarNames L ∧ u ≠ v := by
  induction L with
  | nil => simp [replaceDvar, dvarNames] at h
  | cons s L ih =>
    cases s with
    | lit c =>
      simp only [replaceDvar, dvarNames] at h
      have := ih h
      exact ⟨by simp [dvarNames, this.1], this.2⟩
    | svar w =>
      simp only [replaceDvar, dvarNames] at h
      have := ih h
      exact ⟨by simp [dvarNames, this.1], this.2⟩
    | dvar w =>
      by_cases hwv : w = v
      · simp only [replaceDvar, hwv, if_true] at h
        have h' : u ∈ dvarNames (replaceDvar v val L) := by
          rwa [dvarNames_lit_append] at h
        have := ih h'
        exact ⟨by simp [dvarNames, this.1], this.2⟩
      · simp only [replaceDvar, hwv, if_false, List.singleton_append,
          dvarNames, List.mem_cons] at h
        rcases h with h | h
        · subst h
          exact ⟨by simp [dvarNames], hwv⟩
        · have := ih h
          exact ⟨by simp [dvarNames, this.1], this.2⟩

theorem svarNames_replaceSvar_mem (v : String) (val : List Char) (L : List Seg)
    (hnd : dvarFree L = true)
    (u : String) (h : u ∈ svarNames (replaceSvar v val L)) :
    u ∈ svarNames L ∧ u ≠ v := by
  induction L with
  | nil => simp [replaceSvar, svarNames] at h
  | cons s L ih =>
    simp only [dvarFree, List.all_cons, Bool.and_eq_true] at hnd
    have ih := ih (by simpa [dvarFree] using hnd.2)
    cases s with
    | lit c =>
      simp only [replaceSvar, svarNames] at h
      have := ih h
      exact ⟨by simp [svarNames, this.1], this.2⟩
    | dvar w => simp at hnd
    | svar w =>
      by_cases hwv : w = v
      · simp only [replaceSvar, hwv, if_true] at h
        have h' : u ∈ svarNames (replaceSvar v val L) := by
          rwa [svarNames_lit_append] at h
        have := ih h'
        exact ⟨by simp [svarNames, this.1], this.2⟩
      · simp only [replaceSvar, hwv, if_false, List.singleton_append,
          svarNames, List.mem_cons] at h
        rcases h with h | h
        · subst h
          exact ⟨by simp [svarNames], hwv⟩
        · have := ih h
          exact ⟨by simp [svarNames, this.1], this.2⟩

end TemplateProcessor

namespace TemplateProcessor

theorem render_lit_append (cs : List Char) (M : List Seg) :
    render (cs.map Seg.lit ++ M) = cs ++ render M := by
  induction cs with
  | nil => rfl
  | cons c cs ih => simpa [render, Seg.render] using ih

theorem substDvarsAll_lit_append (value : String → List Char) (cs : List Char)
    (M : List Seg) :
    substDvarsAll value (cs.map Seg.lit ++ M) =
      cs.map Seg.lit ++ substDvarsAll value M := by
  induction cs with
  | nil => rfl
  | cons c cs ih => simpa [substDvarsAll] using ih

theorem substSvarsAll_lit_append (value : String → List Char) (cs : List Char)
    (M : List Seg) :
    substSvarsAll value (cs.map Seg.lit ++ M) =
      cs.map Seg.lit ++ substSvarsAll value M := by
  induction cs with
  | nil => rfl
  | cons c cs ih => simpa [substSvarsAll] using ih

theorem dvarFree_lit_append (cs : List Char) (M : List Seg) :
    dvarFree (cs.map Seg.lit ++ M) = dvarFree M := by
  induction cs with
  | nil => rfl
  | cons c cs ih => simpa [dvarFree] using ih

theorem substDvarsAll_replaceDvar (value : String → List Char) (v : String)
    (L : List Seg) :
    substDvarsAll value (replaceDvar v (value v) L) = substDvarsAll value L := by
  induction L with
  | nil => rfl
  | cons s L ih =>
    cases s with
    | lit c => simpa [replaceDvar, substDvarsAll] using ih
    | svar w => simpa [replaceDvar, substDvarsAll] using ih
    | dvar w =>
      by_cases hwv : w = v
      · subst hwv
        simp only [replaceDvar, if_true, substDvarsAll_lit_append, ih]
        simp [substDvarsAll]
      · simp only [replaceDvar, hwv, if_false, List.singleton_append]
        simp only [substDvarsAll, ih]

theorem substSvarsAll_replaceSvar (value : String → List Char) (v : String)
    (L : List Seg) :
    substSvarsAll value (replaceSvar v (value v) L) = substSvarsAll value L := by
  induction L with
  | nil => rfl
  | cons s L ih =>
    cases s with
    | lit c => simpa [replaceSvar, substSvarsAll] using ih
    | dvar w => simpa [replaceSvar, substSvarsAll] using ih
    | svar w =>
      by_cases hwv : w = v
      · subst hwv
        simp only [replaceSvar, if_true, substSvarsAll_lit_append, ih]
        simp [substSvarsAll]
      · simp only [replaceSvar, hwv, if_false, List.singleton_append]
        simp only [substSvarsAll, ih]

theorem dvarFree_substDvarsAll (value : String → List Char) (L : List Seg) :
    dvarFree (substDvarsAll value L) = true := by
  induction L with
  | nil => rfl
  | cons s L ih =>
    cases s with
    | lit c => simpa [substDvarsAll, dvarFree] using ih
    | svar w => simpa [substDvarsAll, dvarFree] using ih
    | dvar w =>
      simp only [substDvarsAll]
      rw [dvarFree_lit_append]
      exact ih

theorem dvarFree_replaceSvar (v : String) (val : List Char) (L : List Seg)
    (h : dvarFree L = true) : dvarFree (replaceSvar v val L) = true := by
  induction L with
  | nil => rfl
  | cons s L ih =>
    simp only [dvarFree, List.all_cons, Bool.and_eq_true] at h
    have ihL := ih (by simpa [dvarFree] using h.2)
    cases s with
    | lit c => simpa [replaceSvar, dvarFree] using ihL
    | dvar w => simp at h
    | svar w =>
      by_cases hwv : w = v
      · simp only [replaceSvar, hwv, if_true]
        rw [dvarFree_lit_append]
        exact ihL
      · simp only [replaceSvar, hwv, if_false, List.singleton_append]
        simpa [dvarFree] using ihL

theorem wf_substDvarsAll (value : String → List Char) (L : List Seg)
    (hL : wfTemplate L = true)
    (hval : ∀ w, ∀ c ∈ value w, (c != '{' && c != '}') = true) :
    wfTemplate (substDvarsAll value L) = true := by
  induction L with
  | nil => rfl
  | cons s L ih =>
    simp only [wfTemplate, List.all_cons, Bool.and_eq_true] at hL
    have ihL := ih hL.2
    cases s with
    | lit c => simpa [substDvarsAll, wfTemplate, hL.1] using ihL
    | svar w => simpa [substDvarsAll, wfTemplate, hL.1] using ihL
    | dvar w =>
      simp only [substDvarsAll]
      simp only [wfTemplate, List.all_append, Bool.and_eq_true]
      exact ⟨wf_lit_run (value w) (hval w), ihL⟩

theorem svarNames_substDvarsAll_mem (value : String → List Char) (L : List Seg)
    (u : String) (h : u ∈ svarNames (substDvarsAll value L)) :
    u ∈ svarNames L := by
  induction L with
  | nil => simpa [substDvarsAll, svarNames] using h
  | cons s L ih =>
    cases s with
    | lit c =>
      simp only [substDvarsAll, svarNames] at h
      simpa [svarNames] using ih h
    | svar w =>
      simp only [substDvarsAll, svarNames, List.mem_cons] at h
      rcases h with h | h
      · simp [svarNames, h]
      · simp [svarNames, ih h]
    | dvar w =>
      simp only [substDvarsAll] at h
      rw [svarNames_lit_append] at h
      simp [svarNames, ih h]

theorem dvarNames_word (L : List Seg) (hL : wfTemplate L = true) :
    ∀ v ∈ dvarNames L, v.toList.all wordChar = true := by
  induction L with
  | nil => intro v hv; simp [dvarNames] at hv
  | cons s L ih =>
    simp only [wfTemplate, List.all_cons, Bool.and_eq_true] at hL
    have ihL := ih hL.2
    intro v hv
    cases s with
    | lit c => exact ihL v (by simpa [dvarNames] using hv)
    | svar w => exact ihL v (by simpa [dvarNames] using hv)
    | dvar w =>
      simp only [dvarNames, List.mem_cons] at hv
      rcases hv with hv | hv
      · subst hv
        have := hL.1
        simp only [Seg.wf, Bool.and_eq_true] at this
        exact this.2
      · exact ihL v hv

theorem svarNames_word (L : List Seg) (hL : wfTemplate L = true) :
    ∀ v ∈ svarNames L, v.toList.all wordChar = true := by
  induction L with
  | nil => intro v hv; simp [svarNames] at hv
  | cons s L ih =>
    simp only [wfTemplate, List.all_cons, Bool.and_eq_true] at hL
    have ihL := ih hL.2
    intro v hv
    cases s with
    | lit c => exact ihL v (by simpa [svarNames] using hv)
    | svar w =>
      simp only [svarNames, List.mem_cons] at hv
      rcases hv with hv | hv
      · subst hv
        have := hL.1
        simp only [Seg.wf, Bool.and_eq_true] at this
        exact this.2
      · exact ihL v hv
    | dvar w =>
      simp only [svarNames, List.mem_cons] at hv
      rcases hv with hv | hv
      · subst hv
        have := hL.1
        simp only [Seg.wf, Bool.and_eq_true] at this
        exact this.2
      · exact ihL v hv

end TemplateProcessor

namespace TemplateProcessor

theorem specSubstitute_eq (L : List Seg) (data : JDict) :
    specSubstitute L data =
      render (substSvarsAll (fun w => (resolvedValue data w).toList)
        (substDvarsAll (fun w => (resolvedValue data w).toList) L)) := by
  induction L with
  | nil => rfl
  | cons s L ih =>
    cases s with
    | lit c => simpa [specSubstitute, substDvarsAll, substSvarsAll, render, Seg.render] using ih
    | svar v =>
      simp only [specSubstitute, List.map_cons, List.flatten_cons] at *
      simp only [substDvarsAll, substSvarsAll, substSvarsAll_lit_append]
      rw [render_lit_append, ← ih]
    | dvar v =>
      simp only [specSubstitute, List.map_cons, List.flatten_cons] at *
      simp only [substDvarsAll, substSvarsAll_lit_append]
      rw [render_lit_append, ← ih]

theorem specSubstitute_of_no_svars (L : List Seg) (data : JDict)
    (h : svarNames L = []) : specSubstitute L data = render L := by
  induction L with
  | nil => rfl
  | cons s L ih =>
    cases s with
    | lit c =>
      simp only [svarNames] at h
      simpa [specSubstitute, render, Seg.render] using ih h
    | svar v => simp [svarNames] at h
    | dvar v => simp [svarNames] at h

theorem specSubstitute_clean (L : List Seg) (data : JDict)
    (hL : wfTemplate L = true)
    (hvals : ∀ v, braceFree (resolvedValue data v) = true) :
    ∀ c ∈ specSubstitute L data, (c != '{' && c != '}') = true := by
  induction L with
  | nil => intro c hc; simp [specSubstitute] at hc
  | cons s L ih =>
    simp only [wfTemplate, List.all_cons, Bool.and_eq_true] at hL
    have ihL := ih hL.2
    intro c hc
    simp only [specSubstitute, List.map_cons, List.flatten_cons, List.mem_append] at hc
    rcases hc with hc | hc
    · cases s with
      | lit c' =>
        simp only [List.mem_singleton] at hc
        subst hc
        exact hL.1
      | svar v =>
        have := hvals v
        simp only [braceFree, List.all_eq_true] at this
        exact this c hc
      | dvar v =>
        have := hvals v
        simp only [braceFree, List.all_eq_true] at this
        exact this c hc
    · exact ihL c hc

theorem findSingle_of_clean (l : List Char)
    (h : ∀ c ∈ l, (c == '{') = false) : findSingle l = [] := by
  induction l with
  | nil => rw [findSingle.eq_def]
  | cons c t ih =>
    rw [findSingle.eq_def]
    simp only [h c (List.mem_cons_self c t), if_false]
    exact ih (fun c' hc' => h c' (List.mem_cons_of_mem _ hc'))

theorem findDouble_of_clean (l : List Char)
    (h : ∀ c ∈ l, (c == '{') = false) : findDouble l = [] := by
  induction l with
  | nil => rw [findDouble.eq_def]
  | cons c t ih =>
    rw [findDouble.eq_def]
    simp only [h c (List.mem_cons_self c t), if_false]
    exact ih (fun c' hc' => h c' (List.mem_cons_of_mem _ hc'))

theorem render_cons_ne_nil (s : Seg) (L : List Seg) :
    render (s :: L) ≠ [] := by
  cases s <;> simp [render, Seg.render]

theorem braceFree_resolvedValue_of_entries (data : JDict)
    (h : ∀ kv ∈ data, braceFree (if kv.2 == JVal.null then "" else pyStr kv.2) = true) :
    ∀ v, braceFree (resolvedValue data v) = true := by
  intro v
  unfold resolvedValue
  cases hfind : JDict.get? data v with
  | none => rfl
  | some w =>
    simp only [JDict.get?, Option.map_eq_some'] at hfind
    obtain ⟨kv, hkv, hw⟩ := hfind
    have hmem := List.mem_of_find?_eq_some hkv
    subst hw
    exact h kv hmem

end TemplateProcessor

namespace TemplateProcessor

theorem braceFree_chars (s : String) (h : braceFree s = true) :
    ∀ c ∈ s.toList, (c != '{' && c != '}') = true := by
  simpa [braceFree, List.all_eq_true] using h

theorem clean_not_lbrace (c : Char) (h : (c != '{' && c != '}') = true) :
    (c == '{') = false := by
  simp only [Bool.and_eq_true, bne_iff_ne] at h
  exact beq_eq_false_iff_ne.mpr h.1

theorem foldD_render (data' data : JDict) (vars : List String) (M : List Seg)
    (hk : ∀ v ∈ vars, JDict.hasKey data' v = true)
    (hw : ∀ v ∈ vars, v.toList.all wordChar = true)
    (hveq : ∀ v, valueStr data' v = resolvedValue data v)
    (hbf : ∀ v, braceFree (resolvedValue data v) = true)
    (hM : wfTemplate M = true)
    (hcov : ∀ u ∈ dvarNames M, u ∈ vars) :
    vars.foldl (fun r var =>
      if JDict.hasKey data' var then
        replaceSub ('{' :: '{' :: var.toList ++ ['}', '}'])
          (valueStr data' var).toList r
      else r) (render M)
    = render (substDvarsAll (fun w => (resolvedValue data w).toList) M) := by
  revert hk hw hM hcov
  induction vars generalizing M with
  | nil =>
    intro hk hw hM hcov
    have hd : dvarNames M = [] := by
      cases hd : dvarNames M with
      | nil => rfl
      | cons u us =>
        have := hcov u (by rw [hd]; exact List.mem_cons_self u us)
        simp at this
    rw [List.foldl_nil, substDvarsAll_of_no_dvars _ _ hd]
  | cons v vars ih =>
    intro hk hw hM hcov
    rw [List.foldl_cons, if_pos (hk v (List.mem_cons_self v vars))]
    have hbfv := braceFree_chars _ (hbf v)
    have hstep : replaceSub ('{' :: '{' :: v.toList ++ ['}', '}'])
        (valueStr data' v).toList (render M)
        = render (replaceDvar v ((resolvedValue data v).toList) M) := by
      have := replaceSub_dvar_render v ((resolvedValue data v).toList) M hM
        (hw v (List.mem_cons_self v vars))
        (fun c hc => clean_not_lbrace c (hbfv c hc))
      rw [hveq v]
      simpa [List.cons_append] using this
    rw [hstep]
    rw [ih (replaceDvar v ((resolvedValue data v).toList) M)
      (fun u hu => hk u (List.mem_cons_of_mem _ hu))
      (fun u hu => hw u (List.mem_cons_of_mem _ hu))
      (wf_replaceDvar v _ M hM hbfv)
      (by
        intro u hu
        obtain ⟨h1, h2⟩ := dvarNames_replaceDvar_mem v _ M u hu
        rcases List.mem_cons.mp (hcov u h1) with h | h
        · exact absurd h h2
        · exact h)]
    rw [substDvarsAll_replaceDvar (fun w => (resolvedValue data w).toList) v M]

theorem foldS_render (data' data : JDict) (vars : List String) (M : List Seg)
    (hk : ∀ v ∈ vars, JDict.hasKey data' v = true)
    (hw : ∀ v ∈ vars, v.toList.all wordChar = true)
    (hveq : ∀ v, valueStr data' v = resolvedValue data v)
    (hbf : ∀ v, braceFree (resolvedValue data v) = true)
    (hM : wfTemplate M = true)
    (hnd : dvarFree M = true)
    (hcov : ∀ u ∈ svarNames M, u ∈ vars) :
    vars.foldl (fun r var =>
      if JDict.hasKey data' var then
        replaceSub ('{' :: var.toList ++ ['}'])
          (valueStr data' var).toList r
      else r) (render M)
    = render (substSvarsAll (fun w => (resolvedValue data w).toList) M) := by
  revert hk hw hM hnd hcov
  induction vars generalizing M with
  | nil =>
    intro hk hw hM hnd hcov
    have hs : svarNames M = [] := by
      cases hs : svarNames M with
      | nil => rfl
      | cons u us =>
        have := hcov u (by rw [hs]; exact List.mem_cons_self u us)
        simp at this
    rw [List.foldl_nil, substSvarsAll_of_no_svars _ _ hs]
  | cons v vars ih =>
    intro hk hw hM hnd hcov
    rw [List.foldl_cons, if_pos (hk v (List.mem_cons_self v vars))]
    have hbfv := braceFree_chars _ (hbf v)
    have hstep : replaceSub ('{' :: v.toList ++ ['}'])
        (valueStr data' v).toList (render M)
        = render (replaceSvar v ((resolvedValue data v).toList) M) := by
      have := replaceSub_svar_render v ((resolvedValue data v).toList) M hM hnd
        (hw v (List.mem_cons_self v vars))
      rw [hveq v]
      simpa [List.cons_append] using this
    rw [hstep]
    rw [ih (replaceSvar v ((resolvedValue data v).toList) M)
      (fun u hu => hk u (List.mem_cons_of_mem _ hu))
      (fun u hu => hw u (List.mem_cons_of_mem _ hu))
      (wf_replaceSvar v _ M hM hbfv)
      (dvarFree_replaceSvar v _ M hnd)
      (by
        intro u hu
        obtain ⟨h1, h2⟩ := svarNames_replaceSvar_mem v _ M hnd u hu
        rcases List.mem_cons.mp (hcov u h1) with h | h
        · exact absurd h h2
        · exact h)]
    rw [substSvarsAll_replaceSvar (fun w => (resolvedValue data w).toList) v M]

end TemplateProcessor

namespace TemplateProcessor

theorem string_toList_mk (l : List Char) : (String.mk l).toList = l := rfl

theorem string_mk_ne_empty (l : List Char) (h : l ≠ []) : String.mk l ≠ "" := by
  intro he
  exact h (congrArg String.toList he)

theorem substitute_variables_render_eq (L : List Seg) (data : JDict)
    (hL : wfTemplate L = true)
    (hvals : ∀ v, braceFree (resolvedValue data v) = true) :
    substitute_variables (String.mk (render L)) data
      = String.mk (specSubstitute L data) := by
  cases L with
  | nil => rfl
  | cons s L0 =>
    have hne : String.mk (render (s :: L0)) ≠ "" :=
      string_mk_ne_empty _ (render_cons_ne_nil s L0)
    simp only [substitute_variables]
    rw [if_neg hne]
    rw [string_toList_mk]
    rw [findSingle_render _ hL, findDouble_render _ hL]
    by_cases hv : ((svarNames (s :: L0) ++ dvarNames (s :: L0)).dedup).isEmpty = true
    · rw [if_pos hv]
      have h2 : svarNames (s :: L0) ++ dvarNames (s :: L0) = [] :=
        (List.dedup_eq_nil _).mp (List.isEmpty_iff.mp hv)
      have hs : svarNames (s :: L0) = [] := (List.append_eq_nil.mp h2).1
      rw [specSubstitute_of_no_svars _ _ hs]
    · rw [if_neg hv]
      rw [foldD_render
        (fillMissing data ((svarNames (s :: L0) ++ dvarNames (s :: L0)).dedup))
        data (dvarNames (s :: L0)) (s :: L0)
        (fun u hu => hasKey_fillMissing_of_mem data _ u
          (List.mem_dedup.mpr (List.mem_append.mpr (Or.inr hu))))
        (dvarNames_word _ hL)
        (fun u => valueStr_fillMissing data _ u)
        hvals hL (fun u hu => hu)]
      rw [foldS_render
        (fillMissing data ((svarNames (s :: L0) ++ dvarNames (s :: L0)).dedup))
        data (svarNames (s :: L0))
        (substDvarsAll (fun w => (resolvedValue data w).toList) (s :: L0))
        (fun u hu => hasKey_fillMissing_of_mem data _ u
          (List.mem_dedup.mpr (List.mem_append.mpr (Or.inl hu))))
        (svarNames_word _ hL)
        (fun u => valueStr_fillMissing data _ u)
        hvals
        (wf_substDvarsAll _ _ hL (fun w c hc => braceFree_chars _ (hvals w) c hc))
        (dvarFree_substDvarsAll _ _)
        (fun u hu => svarNames_substDvarsAll_mem _ _ u hu)]
      rw [← specSubstitute_eq]

end TemplateProcessor

namespace TemplateProcessor

/-- C10: for every non-static template — rendered from a well-formed segment
list (brace-free literals, nonempty word placeholder names) — and every values
map whose resolved values are brace-free, `substitute_variables`
(`template_processor.py:9-55`) follows one uniform documented policy: its
output is exactly the simultaneous specification-side substitution
`specSubstitute`, replacing every placeholder token by its resolved value — a
supplied variable's stringified value, the empty string for a missing or null
one, never a mix of failing and substituting; no unresolved single- or
double-brace token survives in the output; and the output depends only on each
variable's resolved value, so it is order-independent of the map. -/
theorem c10_template_resolution_uniform (L : List Seg) (data : JDict)
    (hL : wfTemplate L = true)
    (hvals : ∀ v, braceFree (resolvedValue data v) = true) :
    substitute_variables (String.mk (render L)) data
        = String.mk (specSubstitute L data)
      ∧ findSingle (specSubstitute L data) = []
      ∧ findDouble (specSubstitute L data) = []
      ∧ ∀ data2 : JDict, (∀ v, resolvedValue data2 v = resolvedValue data v) →
          substitute_variables (String.mk (render L)) data2
            = substitute_variables (String.mk (render L)) data := by
  have hclean := specSubstitute_clean L data hL hvals
  refine ⟨substitute_variables_render_eq L data hL hvals, ?_, ?_, ?_⟩
  · exact findSingle_of_clean _ (fun c hc => clean_not_lbrace c (hclean c hc))
  · exact findDouble_of_clean _ (fun c hc => clean_not_lbrace c (hclean c hc))
  · intro data2 h2
    have hvals2 : ∀ v, braceFree (resolvedValue data2 v) = true := by
      intro v
      rw [h2 v]
      exact hvals v
    rw [substitute_variables_render_eq L data2 hL hvals2,
      substitute_variables_render_eq L data hL hvals]
    have hspec : specSubstitute L data2 = specSubstitute L data := by
      simp only [specSubstitute]
      refine congrArg List.flatten (List.map_congr_left ?_)
      intro s hs
      cases s <;> simp [h2]
    rw [hspec]

/-- Closed instance of the C10 theorem: the template
`Hi \x7bname\x7d, \x7b\x7bmood\x7d\x7d! \x7bgone\x7d` with values
`name=Maya, mood=calm` (and `gone` missing) resolves to `Hi Maya, calm! `,
with no unresolved token left. -/
theorem c10_template_resolution_uniform_witness :
    substitute_variables "Hi \x7bname\x7d, \x7b\x7bmood\x7d\x7d! \x7bgone\x7d"
        [("name", JVal.str "Maya"), ("mood", JVal.str "calm")]
      = "Hi Maya, calm! "
    ∧ findSingle ("Hi Maya, calm! ".toList) = []
    ∧ findDouble ("Hi Maya, calm! ".toList) = [] := by
  have h := c10_template_resolution_uniform
    [Seg.lit 'H', Seg.lit 'i', Seg.lit ' ', Seg.svar "name", Seg.lit ',',
     Seg.lit ' ', Seg.dvar "mood", Seg.lit '!', Seg.lit ' ', Seg.svar "gone"]
    [("name", JVal.str "Maya"), ("mood", JVal.str "calm")]
    (by decide)
    (braceFree_resolvedValue_of_entries _ (by
      intro kv hkv
      rcases List.mem_cons.mp hkv with h | h
      · subst h
        rfl
      · rcases List.mem_singleton.mp h with h'
        subst h'
        rfl))
  obtain ⟨h1, h2, h3, _⟩ := h
  refine ⟨?_, ?_, ?_⟩
  · have e1 : String.mk (render
        [Seg.lit 'H', Seg.lit 'i', Seg.lit ' ', Seg.svar "name", Seg.lit ',',
         Seg.lit ' ', Seg.dvar "mood", Seg.lit '!', Seg.lit ' ', Seg.svar "gone"])
        = "Hi \x7bname\x7d, \x7b\x7bmood\x7d\x7d! \x7bgone\x7d" := by rfl
    have e2 : String.mk (specSubstitute
        [Seg.lit 'H', Seg.lit 'i', Seg.lit ' ', Seg.svar "name", Seg.lit ',',
         Seg.lit ' ', Seg.dvar "mood", Seg.lit '!', Seg.lit ' ', Seg.svar "gone"]
        [("name", JVal.str "Maya"), ("mood", JVal.str "calm")])
        = "Hi Maya, calm! " := by rfl
    rw [e1, e2] at h1
    exact h1
  · have e3 : specSubstitute
        [Seg.lit 'H', Seg.lit 'i', Seg.lit ' ', Seg.svar "name", Seg.lit ',',
         Seg.lit ' ', Seg.dvar "mood", Seg.lit '!', Seg.lit ' ', Seg.svar "gone"]
        [("name", JVal.str "Maya"), ("mood", JVal.str "calm")]
        = "Hi Maya, calm! ".toList := by rfl
    rw [e3] at h2
    exact h2
  · have e4 : specSubstitute
        [Seg.lit 'H', Seg.lit 'i', Seg.lit ' ', Seg.svar "name", Seg.lit ',',
         Seg.lit ' ', Seg.dvar "mood", Seg.lit '!', Seg.lit ' ', Seg.svar "gone"]
        [("name", JVal.str "Maya"), ("mood", JVal.str "calm")]
        = "Hi Maya, calm! ".toList := by rfl
    rw [e4] at h3
    exact h3

end TemplateProcessor
